import Mathlib

/-!
Verification development for the `regexpp-js` Rust port: a shallow embedding
of the lexical reader (`src/reader.rs`), the recursive-descent validator
(`src/validator.rs`), the syntax-error constructor
(`src/regexp_syntax_error.rs`) and the AST-building parser callbacks
(`src/parser.rs`), together with theorems about the embedded code.

Conventions of the embedding:
* `u16` code units and `u32` code points are `Nat`s; arithmetic that can
  overflow in Rust is modelled explicitly (overflow of a `u32`
  accumulation is a debug-build panic and is modelled as a panic).
* Rust panics (failed `assert!`/`expect`/`unwrap`, out-of-bounds indexing
  and slicing, `unimplemented!()`) are modelled as `Except.error`.
* Functions whose Rust body is an `unimplemented!()` stub are modelled
  from the specification document; each such definition carries a doc
  comment starting with `Modelled from the spec:`.
-/

set_option maxRecDepth 10000

namespace Regexpp

/-- Code points are 21-bit unsigned values; code units are 16-bit. Both are
embedded as `Nat` (mirrors `pub type CodePoint = u32` in `src/reader.rs`). -/
abbrev CodePoint := Nat

/-- Mirrors `is_surrogate_code_point` in `src/reader.rs` (and `src/wtf16.rs`):
the value lies in the surrogate range `0xD800..=0xDFFF`. -/
def is_surrogate_code_point (value : Nat) : Bool :=
  0xd800 ≤ value && value ≤ 0xdfff

/-- Mirrors `is_lead_surrogate` in `src/unicode/mod.rs`. -/
def is_lead_surrogate (code : Nat) : Bool :=
  0xd800 ≤ code && code ≤ 0xdbff

/-- Mirrors `is_trail_surrogate` in `src/unicode/mod.rs`. -/
def is_trail_surrogate (code : Nat) : Bool :=
  0xdc00 ≤ code && code ≤ 0xdfff

/-- Mirrors `combine_surrogate_pair` in `src/unicode/mod.rs`. -/
def combine_surrogate_pair (lead trail : Nat) : Nat :=
  (lead - 0xd800) * 0x400 + (trail - 0xdc00) + 0x10000

/-- The item sequence produced by Rust's `char::decode_utf16` on a list of
code units: a well-formed surrogate pair yields `Except.ok` of the combined
supplementary code point, a BMP non-surrogate unit yields itself, and an
unpaired surrogate yields `Except.error` carrying the offending unit. -/
def decodeUtf16 : List Nat → List (Except Nat Nat)
  | [] => []
  | u :: rest =>
    if is_lead_surrogate u then
      match rest with
      | v :: rest2 =>
        if is_trail_surrogate v then
          Except.ok (combine_surrogate_pair u v) :: decodeUtf16 rest2
        else
          Except.error u :: decodeUtf16 (v :: rest2)
      | [] => [Except.error u]
    else if is_trail_surrogate u then
      Except.error u :: decodeUtf16 rest
    else
      Except.ok u :: decodeUtf16 rest

/-- Mirrors `get_single_surrogate_pair_code_point` in `src/reader.rs`: decode
the given units with `char::decode_utf16`; the `expect`/`assert!` calls in the
Rust body (first item must decode successfully, there must be exactly one
item, and the code point must exceed `0xFFFF`) are panics, modelled by
`none`. -/
def get_single_surrogate_pair_code_point (values : List Nat) : Option Nat :=
  match decodeUtf16 values with
  | [] => none
  | Except.error _ :: _ => none
  | Except.ok c :: rest =>
    match rest with
    | _ :: _ => none
    | [] => if c > 0xffff then some c else none

/-- The reader state, mirroring `struct Reader` in `src/reader.rs`.
Field `end_` stands for the Rust field `_end` (`end` is a Lean keyword);
the other leading underscores are dropped. -/
structure Reader where
  use_unicode_impl : Bool
  s : List Nat
  i : Nat
  start : Nat
  end_ : Nat
  cp1 : Option Nat
  w1 : Nat
  cp2 : Option Nat
  w2 : Nat
  cp3 : Option Nat
  w3 : Nat
  cp4 : Option Nat
deriving Repr, DecidableEq

/-- Mirrors `impl Default for Reader` in `src/reader.rs`. -/
def Reader.default : Reader :=
  { use_unicode_impl := false
    s := []
    i := 0
    start := 0
    end_ := 0
    cp1 := none
    w1 := 1
    cp2 := none
    w2 := 1
    cp3 := none
    w3 := 1
    cp4 := none }

/-- Mirrors `Reader::at` in `src/reader.rs`. `Except.error ()` is a panic:
either the indexing `self._s[i]` or the slicing `self._s[i..=i + 1]` is out
of bounds, or `get_single_surrogate_pair_code_point` hits one of its
`expect`/`assert!` panics (which happens exactly when the unit at `i` is an
unpaired surrogate while unicode mode is on). `Except.ok none` is the
in-code `None` for positions at or past `_end`. -/
def Reader.atIndex (r : Reader) (idx : Nat) : Except Unit (Option Nat) :=
  if idx < r.end_ then
    match r.s.get? idx with
    | none => Except.error ()
    | some c1 =>
      if !r.use_unicode_impl || !is_surrogate_code_point c1 then
        Except.ok (some c1)
      else
        match r.s.get? (idx + 1) with
        | none => Except.error ()
        | some c2 =>
          match get_single_surrogate_pair_code_point [c1, c2] with
          | none => Except.error ()
          | some cp => Except.ok (some cp)
  else
    Except.ok none

/-- Mirrors `Reader::width` in `src/reader.rs`. -/
def Reader.width (c : Option Nat) : Nat :=
  match c with
  | some c => if c > 0xffff then 2 else 1
  | none => 1

/-- Mirrors `Reader::rewind` in `src/reader.rs`. The `assert!(index >= start)`
is a panic when violated; each window slot is refreshed through `at`. -/
def Reader.rewind (r : Reader) (index : Nat) : Except Unit Reader :=
  if index < r.start then Except.error ()
  else do
    let cp1 ← r.atIndex index
    let w1 := Reader.width cp1
    let cp2 ← r.atIndex (index + w1)
    let w2 := Reader.width cp2
    let cp3 ← r.atIndex (index + w1 + w2)
    let w3 := Reader.width cp3
    let cp4 ← r.atIndex (index + w1 + w2 + w3)
    Except.ok { r with
      i := index, cp1 := cp1, w1 := w1, cp2 := cp2, w2 := w2,
      cp3 := cp3, w3 := w3, cp4 := cp4 }

/-- Mirrors `Reader::reset` in `src/reader.rs`: install the new buffer,
bounds and unicode flag, then `rewind` to `start`. -/
def Reader.reset (r : Reader) (source : List Nat) (start end_ : Nat)
    (u_flag : Bool) : Except Unit Reader :=
  Reader.rewind
    { r with use_unicode_impl := u_flag, start := start, s := source,
             end_ := end_ }
    start

/-- Mirrors `Reader::advance` in `src/reader.rs`: a no-op when `_cp1` is
`None`; otherwise shift the window and refresh the last slot via `at`. -/
def Reader.advance (r : Reader) : Except Unit Reader :=
  match r.cp1 with
  | none => Except.ok r
  | some _ => do
    let i' := r.i + r.w1
    let cp1' := r.cp2
    let w1' := r.w2
    let cp2' := r.cp3
    let w2' := Reader.width cp2'
    let cp3' := r.cp4
    let w3' := Reader.width cp3'
    let cp4' ← r.atIndex (i' + w1' + w2' + w3')
    Except.ok { r with
      i := i', cp1 := cp1', w1 := w1', cp2 := cp2', w2 := w2',
      cp3 := cp3', w3 := w3', cp4 := cp4' }

/-- Mirrors `Reader::eat` in `src/reader.rs`. -/
def Reader.eat (r : Reader) (cp : Nat) : Except Unit (Bool × Reader) :=
  if r.cp1 = some cp then do
    let r' ← r.advance
    Except.ok (true, r')
  else
    Except.ok (false, r)

/-- Mirrors `Reader::eat2` in `src/reader.rs`. -/
def Reader.eat2 (r : Reader) (cp1 cp2 : Nat) : Except Unit (Bool × Reader) :=
  if r.cp1 = some cp1 ∧ r.cp2 = some cp2 then do
    let r' ← r.advance
    let r'' ← r'.advance
    Except.ok (true, r'')
  else
    Except.ok (false, r)

/-- Mirrors `Reader::eat3` in `src/reader.rs`. -/
def Reader.eat3 (r : Reader) (cp1 cp2 cp3 : Nat) :
    Except Unit (Bool × Reader) :=
  if r.cp1 = some cp1 ∧ r.cp2 = some cp2 ∧ r.cp3 = some cp3 then do
    let r' ← r.advance
    let r'' ← r'.advance
    let r''' ← r''.advance
    Except.ok (true, r''')
  else
    Except.ok (false, r)

/-- The four reader fields that `at` reads and that `rewind`, `advance`,
`eat`, `eat2`, `eat3` never modify: the buffer, the two bounds and the
unicode flag. -/
def Reader.baseEq (r r' : Reader) : Prop :=
  r.s = r'.s ∧ r.start = r'.start ∧ r.end_ = r'.end_ ∧
    r.use_unicode_impl = r'.use_unicode_impl

theorem Reader.baseEq_refl (r : Reader) : Reader.baseEq r r :=
  ⟨rfl, rfl, rfl, rfl⟩

theorem Reader.baseEq_trans {r r' r'' : Reader} (h : Reader.baseEq r r')
    (h' : Reader.baseEq r' r'') : Reader.baseEq r r'' :=
  ⟨h.1.trans h'.1, h.2.1.trans h'.2.1, h.2.2.1.trans h'.2.2.1,
    h.2.2.2.trans h'.2.2.2⟩

theorem Reader.atIndex_congr {r r' : Reader} (h : Reader.baseEq r r')
    (idx : Nat) : r.atIndex idx = r'.atIndex idx := by
  obtain ⟨h1, _, h3, h4⟩ := h
  simp only [Reader.atIndex, h1, h3, h4]

/-- Unpacks a successful `advance` on a state whose `cp1` is populated. -/
theorem Reader.advance_ok_fields {r r' : Reader} {x : Nat}
    (hcp : r.cp1 = some x) (h : r.advance = Except.ok r') :
    r'.i = r.i + r.w1 ∧ r'.cp1 = r.cp2 ∧ r'.w1 = r.w2 ∧ r'.cp2 = r.cp3 ∧
      r'.w2 = Reader.width r.cp3 ∧ r'.cp3 = r.cp4 ∧
      r'.w3 = Reader.width r.cp4 ∧
      r.atIndex (r.i + r.w1 + r.w2 + Reader.width r.cp3 +
        Reader.width r.cp4) = Except.ok r'.cp4 ∧
      Reader.baseEq r r' := by
  simp only [Reader.advance, hcp] at h
  cases h4 : r.atIndex (r.i + r.w1 + r.w2 + Reader.width r.cp3 +
      Reader.width r.cp4) with
  | error e =>
    rw [h4] at h
    simp only [bind, Except.bind] at h
    exact Except.noConfusion h
  | ok cp4' =>
    rw [h4] at h
    simp only [bind, Except.bind, Except.ok.injEq] at h
    subst h
    exact ⟨rfl, rfl, rfl, rfl, rfl, rfl, rfl, rfl, rfl, rfl, rfl, rfl⟩

/-- Unpacks a successful `rewind`: the bound check passed, the index was
installed, every window slot is the value `at` reports for its position,
every width is the width of its slot, and the base fields are untouched. -/
theorem Reader.rewind_ok_fields {r r' : Reader} {idx : Nat}
    (h : r.rewind idx = Except.ok r') :
    ¬ idx < r.start ∧ r'.i = idx ∧
      r.atIndex idx = Except.ok r'.cp1 ∧ r'.w1 = Reader.width r'.cp1 ∧
      r.atIndex (idx + r'.w1) = Except.ok r'.cp2 ∧
      r'.w2 = Reader.width r'.cp2 ∧
      r.atIndex (idx + r'.w1 + r'.w2) = Except.ok r'.cp3 ∧
      r'.w3 = Reader.width r'.cp3 ∧
      r.atIndex (idx + r'.w1 + r'.w2 + r'.w3) = Except.ok r'.cp4 ∧
      Reader.baseEq r r' := by
  unfold Reader.rewind at h
  by_cases hge : idx < r.start
  · rw [if_pos hge] at h
    exact Except.noConfusion h
  · rw [if_neg hge] at h
    refine ⟨hge, ?_⟩
    cases h1 : r.atIndex idx with
    | error e =>
      rw [h1] at h
      simp only [bind, Except.bind] at h
      exact Except.noConfusion h
    | ok c1 =>
      rw [h1] at h
      simp only [bind, Except.bind] at h
      cases h2 : r.atIndex (idx + Reader.width c1) with
      | error e =>
        rw [h2] at h
        simp only [Except.bind] at h
        exact Except.noConfusion h
      | ok c2 =>
        rw [h2] at h
        simp only [Except.bind] at h
        cases h3 : r.atIndex (idx + Reader.width c1 + Reader.width c2) with
        | error e =>
        rw [h3] at h
        simp only [Except.bind] at h
        exact Except.noConfusion h
        | ok c3 =>
          rw [h3] at h
          simp only [Except.bind] at h
          cases h4 : r.atIndex (idx + Reader.width c1 + Reader.width c2 +
              Reader.width c3) with
          | error e =>
        rw [h4] at h
        simp only [Except.bind] at h
        exact Except.noConfusion h
          | ok c4 =>
            rw [h4] at h
            simp only [Except.bind, Except.ok.injEq] at h
            subst h
            exact ⟨rfl, rfl, rfl, h2, rfl, h3, rfl, h4, rfl, rfl, rfl, rfl⟩

/-- The result of `rewind` only depends on the base fields and the index. -/
theorem Reader.rewind_congr {r r₂ : Reader} (h : Reader.baseEq r r₂)
    (idx : Nat) : r.rewind idx = r₂.rewind idx := by
  obtain ⟨h1, h2, h3, h4⟩ := h
  cases r
  cases r₂
  simp only at h1 h2 h3 h4
  subst h1
  subst h2
  subst h3
  subst h4
  rfl

/-- A reader state is canonical when `rewind` to its own index reproduces
it exactly; `reset` and `rewind` produce only such states and `advance`
preserves them. -/
def Reader.canonical (r : Reader) : Prop := r.rewind r.i = Except.ok r

/-- Builds a successful `rewind` from the canonical-chain equations. -/
theorem Reader.rewind_intro {r : Reader} {idx : Nat}
    (hge : ¬ idx < r.start) (hi : r.i = idx)
    (h1 : r.atIndex idx = Except.ok r.cp1)
    (hw1 : r.w1 = Reader.width r.cp1)
    (h2 : r.atIndex (idx + r.w1) = Except.ok r.cp2)
    (hw2 : r.w2 = Reader.width r.cp2)
    (h3 : r.atIndex (idx + r.w1 + r.w2) = Except.ok r.cp3)
    (hw3 : r.w3 = Reader.width r.cp3)
    (h4 : r.atIndex (idx + r.w1 + r.w2 + r.w3) = Except.ok r.cp4) :
    r.rewind idx = Except.ok r := by
  rw [hw1] at h2 h3 h4
  rw [hw2] at h3 h4
  rw [hw3] at h4
  unfold Reader.rewind
  rw [if_neg hge, h1]
  simp only [bind, Except.bind]
  rw [h2]
  simp only [Except.bind]
  rw [h3]
  simp only [Except.bind]
  rw [h4]
  simp only [Except.bind, Except.ok.injEq]
  cases r
  simp only at hi hw1 hw2 hw3 ⊢
  subst hi
  rw [← hw1, ← hw2, ← hw3]

/-- Every state produced by a successful `rewind` is canonical. -/
theorem Reader.canonical_of_rewind {r r' : Reader} {idx : Nat}
    (h : r.rewind idx = Except.ok r') : r'.canonical := by
  have hf := Reader.rewind_ok_fields h
  have hb : Reader.baseEq r r' := hf.2.2.2.2.2.2.2.2.2
  have hi : r'.i = idx := hf.2.1
  unfold Reader.canonical
  rw [hi, ← Reader.rewind_congr hb idx]
  exact h

/-- Every state produced by a successful `reset` is canonical. -/
theorem Reader.canonical_of_reset {r r' : Reader} {source : List Nat}
    {start end_ : Nat} {u : Bool}
    (h : r.reset source start end_ u = Except.ok r') : r'.canonical :=
  Reader.canonical_of_rewind h

/-- A successful `advance` preserves canonicity. -/
theorem Reader.advance_canonical {r r' : Reader} (hc : r.canonical)
    (h : r.advance = Except.ok r') : r'.canonical := by
  cases hcp : r.cp1 with
  | none =>
    have : r' = r := by
      unfold Reader.advance at h
      rw [hcp] at h
      exact (Except.ok.injEq _ _).mp h.symm
    rw [this]
    exact hc
  | some x =>
    have hf := Reader.rewind_ok_fields hc
    obtain ⟨hge, -, hc1, hw1, hc2, hw2, hc3, hw3, hc4, -⟩ := hf
    obtain ⟨ai, a1, aw1, a2, aw2, a3, aw3, a4, ab⟩ :=
      Reader.advance_ok_fields hcp h
    have hcongr : ∀ n, r'.atIndex n = r.atIndex n := fun n =>
      (Reader.atIndex_congr ab n).symm
    have hstart : r'.start = r.start := ab.2.1.symm
    unfold Reader.canonical
    refine Reader.rewind_intro ?_ rfl ?_ ?_ ?_ ?_ ?_ ?_ ?_
    · rw [hstart, ai]
      omega
    · rw [hcongr, ai, a1]
      exact hc2
    · rw [aw1, a1, hw2]
    · rw [hcongr, ai, aw1, a2]
      exact hc3
    · rw [aw2, a2]
    · rw [hcongr, ai, aw1, aw2, a3, ← hw3]
      exact hc4
    · rw [aw3, a3]
    · rw [hcongr, ai, aw1, aw2, aw3]
      exact a4

/-- A reader over `[0xD800, 0x0061]` in unicode mode: position 0 holds an
isolated (unpaired) high surrogate. -/
def c2UnpairedReader : Reader :=
  { Reader.default with
    use_unicode_impl := true
    s := [0xD800, 0x61]
    end_ := 2 }

/-- A reader over the well-formed surrogate pair `[0xD800, 0xDC00]` in
unicode mode. -/
def c2PairReader : Reader :=
  { Reader.default with
    use_unicode_impl := true
    s := [0xD800, 0xDC00]
    end_ := 2 }

/-- The same unpaired-surrogate buffer with unicode mode off. -/
def c2NonUnicodeReader : Reader :=
  { Reader.default with
    use_unicode_impl := false
    s := [0xD800, 0x61]
    end_ := 2 }

/-- Claim C2: the paired-surrogate and non-unicode parts of the claim hold
(`at` reports the combined code point with width 2 for a pair, and the raw
unit with width 1 when unicode mode is off), but on an isolated surrogate in
unicode mode `Reader::at` panics (`expect("Expected valid surrogate pair")`)
instead of reporting the unit value with width 1 as the claim states. -/
theorem c2_at_panics_on_unpaired_surrogate :
    c2PairReader.atIndex 0 = Except.ok (some 0x10000) ∧
      Reader.width (some 0x10000) = 2 ∧
      c2NonUnicodeReader.atIndex 0 = Except.ok (some 0xD800) ∧
      Reader.width (some 0xD800) = 1 ∧
      c2UnpairedReader.atIndex 0 = Except.error () :=
  ⟨rfl, rfl, rfl, rfl, rfl⟩

/-- Claim C3: `reset` (and hence the reader) is not total on WTF-16 inputs:
resetting over the single isolated surrogate `[0xD800]` with unicode mode on
panics (out-of-bounds slice `_s[0..=1]` inside `at`), contradicting the
claim that no reader operation fails of its own. -/
theorem c3_reset_panics_on_lone_surrogate :
    Reader.reset Reader.default [0xD800] 0 1 true = Except.error () := rfl

/-- The canonical reader state produced by
`reset([0x61,0x61,0x61,0x61,0xD800], 0, 5, true)`: the four-slot window
holds `'a'`s, and the unpaired surrogate sits just outside the window. -/
def c8PanicReader : Reader :=
  { use_unicode_impl := true, s := [97, 97, 97, 97, 0xD800], i := 0,
    start := 0, end_ := 5, cp1 := some 97, w1 := 1, cp2 := some 97, w2 := 1,
    cp3 := some 97, w3 := 1, cp4 := some 97 }

/-- Claim C8 counterexample: a reachable reader state (produced by `reset`)
whose window begins with `'a'`, yet `eat('a')` neither returns true having
advanced nor returns false leaving the state unchanged — it panics while
refreshing the fourth window slot over an unpaired surrogate. -/
theorem c8_eat_panic_counterexample :
    Reader.reset Reader.default [97, 97, 97, 97, 0xD800] 0 5 true =
        Except.ok c8PanicReader ∧
      c8PanicReader.cp1 = some 97 ∧
      c8PanicReader.eat 97 = Except.error () :=
  ⟨rfl, rfl, rfl⟩

/-- Claim C8 (amended): `eat`/`eat2`/`eat3` return false and leave the whole
reader state unchanged when the window does not begin with the requested
sequence; when it does begin with the sequence and the window refreshes
performed by `advance` succeed (which the unamended claim wrongly took for
granted), they return true and advance past exactly the sequence. -/
theorem c8_eat_frame_effect (r : Reader) (a b c : Nat) :
    (r.cp1 ≠ some a → r.eat a = Except.ok (false, r)) ∧
      (¬ (r.cp1 = some a ∧ r.cp2 = some b) →
        r.eat2 a b = Except.ok (false, r)) ∧
      (¬ (r.cp1 = some a ∧ r.cp2 = some b ∧ r.cp3 = some c) →
        r.eat3 a b c = Except.ok (false, r)) ∧
      (∀ r', r.cp1 = some a → r.advance = Except.ok r' →
        r.eat a = Except.ok (true, r') ∧ r'.i = r.i + r.w1 ∧
          r'.cp1 = r.cp2) ∧
      (∀ r' r'', r.cp1 = some a → r.cp2 = some b →
        r.advance = Except.ok r' → r'.advance = Except.ok r'' →
        r.eat2 a b = Except.ok (true, r'') ∧
          r''.i = r.i + r.w1 + r.w2) ∧
      (∀ r' r'' r''', r.cp1 = some a → r.cp2 = some b → r.cp3 = some c →
        r.advance = Except.ok r' → r'.advance = Except.ok r'' →
        r''.advance = Except.ok r''' →
        r.eat3 a b c = Except.ok (true, r''') ∧
          r'''.i = r.i + r.w1 + r.w2 + Reader.width r.cp3) := by
  refine ⟨?_, ?_, ?_, ?_, ?_, ?_⟩
  · intro h
    simp [Reader.eat, h]
  · intro h
    simp only [Reader.eat2, if_neg h]
  · intro h
    simp only [Reader.eat3, if_neg h]
  · intro r' h1 hadv
    have hf := Reader.advance_ok_fields h1 hadv
    refine ⟨?_, hf.1, hf.2.1⟩
    simp only [Reader.eat, if_pos h1, hadv, bind, Except.bind]
  · intro r' r'' h1 h2 hadv1 hadv2
    have hf1 := Reader.advance_ok_fields h1 hadv1
    have hcp1' : r'.cp1 = some b := hf1.2.1.trans h2
    have hf2 := Reader.advance_ok_fields hcp1' hadv2
    constructor
    · simp only [Reader.eat2, if_pos (And.intro h1 h2), hadv1, hadv2, bind,
        Except.bind]
    · rw [hf2.1, hf1.1, hf1.2.2.1]
  · intro r' r'' r''' h1 h2 h3 hadv1 hadv2 hadv3
    have hf1 := Reader.advance_ok_fields h1 hadv1
    have hcp1' : r'.cp1 = some b := hf1.2.1.trans h2
    have hf2 := Reader.advance_ok_fields hcp1' hadv2
    have hcp1'' : r''.cp1 = some c := by
      rw [hf2.2.1, hf1.2.2.2.1]
      exact h3
    have hf3 := Reader.advance_ok_fields hcp1'' hadv3
    constructor
    · simp only [Reader.eat3, if_pos (And.intro h1 (And.intro h2 h3)),
        hadv1, hadv2, hadv3, bind, Except.bind]
    · rw [hf3.1, hf2.1, hf1.1, hf1.2.2.1, hf2.2.2.1, hf1.2.2.2.2.1]

/-- The canonical reader state produced by `reset([97,98,99], 0, 3, false)`. -/
def c8WitnessR0 : Reader :=
  { use_unicode_impl := false, s := [97, 98, 99], i := 0, start := 0,
    end_ := 3, cp1 := some 97, w1 := 1, cp2 := some 98, w2 := 1,
    cp3 := some 99, w3 := 1, cp4 := none }

/-- The state after one `advance` of `c8WitnessR0`. -/
def c8WitnessR1 : Reader :=
  { c8WitnessR0 with
    i := 1
    cp1 := some 98
    cp2 := some 99
    cp3 := none
    cp4 := none }

/-- The state after two `advance`s of `c8WitnessR0`. -/
def c8WitnessR2 : Reader :=
  { c8WitnessR0 with
    i := 2
    cp1 := some 99
    cp2 := none
    cp3 := none
    cp4 := none }

/-- The state after three `advance`s of `c8WitnessR0`. -/
def c8WitnessR3 : Reader :=
  { c8WitnessR0 with
    i := 3
    cp1 := none
    cp2 := none
    cp3 := none
    cp4 := none }

/-- Witness for claim C8: the amended frame-effect theorem applied at the
concrete reader over `"abc"`, eating the three-code-point sequence. -/
theorem c8_eat_frame_effect_witness :
    c8WitnessR0.eat3 97 98 99 = Except.ok (true, c8WitnessR3) ∧
      c8WitnessR3.i = c8WitnessR0.i + c8WitnessR0.w1 + c8WitnessR0.w2 +
        Reader.width c8WitnessR0.cp3 :=
  (c8_eat_frame_effect c8WitnessR0 97 98 99).2.2.2.2.2 c8WitnessR1
    c8WitnessR2 c8WitnessR3 rfl rfl rfl rfl rfl rfl

/-- Decodes a WTF-16 unit sequence to Lean characters for display inside
error messages (the Rust code formats the sliced units as text via
`format!`); a well-formed surrogate pair becomes the combined character and
an unpaired surrogate becomes U+FFFD. -/
def wtf16Chars : List Nat → List Char
  | [] => []
  | u :: rest =>
    if is_lead_surrogate u then
      match rest with
      | v :: rest2 =>
        if is_trail_surrogate v then
          Char.ofNat (combine_surrogate_pair u v) :: wtf16Chars rest2
        else
          Char.ofNat 0xfffd :: wtf16Chars (v :: rest2)
      | [] => [Char.ofNat 0xfffd]
    else if is_trail_surrogate u then
      Char.ofNat 0xfffd :: wtf16Chars rest
    else
      Char.ofNat u :: wtf16Chars rest

/-- Renders a WTF-16 unit sequence as a string (see `wtf16Chars`). -/
def wtf16Display (units : List Nat) : String := String.mk (wtf16Chars units)

/-- Rust slice indexing `&s[a..b]`: out-of-range bounds (`a > b` or
`b > s.len()`) are a panic, modelled as `Except.error ()`. -/
def sliceUnits (s : List Nat) (a b : Nat) : Except Unit (List Nat) :=
  if a ≤ b ∧ b ≤ s.length then Except.ok ((s.drop a).take (b - a))
  else Except.error ()

/-- Converts a code point to a `Char` the way Rust's
`char::try_from(u32)` does: `none` exactly for surrogates and values above
`0x10FFFF` (where the Rust code's `.unwrap()` would panic). -/
def charOfCp (cp : Nat) : Option Char :=
  if cp < 0xd800 ∨ (0xe000 ≤ cp ∧ cp ≤ 0x10ffff) then some (Char.ofNat cp)
  else none

/-- ECMAScript versions, mirroring `enum EcmaVersion` in
`src/ecma_versions.rs`; embedded as the numeric year (with `5` for ES5),
which carries the same order as the Rust `derive(PartialOrd, Ord)`. -/
abbrev EcmaVersion := Nat

/-- Mirrors `LATEST_ECMA_VERSION` in `src/ecma_versions.rs`. -/
def LATEST_ECMA_VERSION : EcmaVersion := 2024

/-- Mirrors `is_decimal_digit` in `src/unicode/mod.rs`. -/
def is_decimal_digit (code : Nat) : Bool := 0x30 ≤ code && code ≤ 0x39

/-- Mirrors `is_line_terminator` in `src/unicode/mod.rs`. -/
def is_line_terminator (code : Nat) : Bool :=
  code = 0x0a || code = 0x0d || code = 0x2028 || code = 0x2029

/-- Mirrors `digit_to_int` in `src/unicode/mod.rs`. -/
def digit_to_int (code : Nat) : Nat :=
  if 0x61 ≤ code ∧ code ≤ 0x66 then code - 0x61 + 10
  else if 0x41 ≤ code ∧ code ≤ 0x46 then code - 0x41 + 10
  else code - 0x30

/-- Mirrors `is_id_start` in `src/unicode/ids.rs`; the non-ASCII tail calls
the `unimplemented!()` stub `is_large_id_start`, which is a panic. -/
def is_id_start (cp : Nat) : Except Unit Bool :=
  if cp < 0x41 then Except.ok false
  else if cp < 0x5b then Except.ok true
  else if cp < 0x61 then Except.ok false
  else if cp < 0x7b then Except.ok true
  else Except.error ()

/-- Mirrors `is_id_continue` in `src/unicode/ids.rs`; the non-ASCII tail
calls `unimplemented!()` stubs, which are panics. -/
def is_id_continue (cp : Nat) : Except Unit Bool :=
  if cp < 0x30 then Except.ok false
  else if cp < 0x3a then Except.ok true
  else if cp < 0x41 then Except.ok false
  else if cp < 0x5b then Except.ok true
  else if cp = 0x5f then Except.ok true
  else if cp < 0x61 then Except.ok false
  else if cp < 0x7b then Except.ok true
  else Except.error ()

/-- Mirrors the `SYNTAX_CHARACTER` set in `src/validator.rs`. -/
def SYNTAX_CHARACTER : List Nat :=
  [0x5e, 0x24, 0x5c, 0x2e, 0x2a, 0x2b, 0x3f, 0x28, 0x29, 0x5b, 0x5d,
   0x7b, 0x7d, 0x7c]

/-- Mirrors the `CLASS_SET_RESERVED_DOUBLE_PUNCTUATOR_CHARACTER` set in
`src/validator.rs`. -/
def CLASS_SET_RESERVED_DOUBLE_PUNCTUATOR_CHARACTER : List Nat :=
  [0x26, 0x21, 0x23, 0x24, 0x25, 0x2a, 0x2b, 0x2c, 0x2e, 0x3a, 0x3b,
   0x3c, 0x3d, 0x3e, 0x3f, 0x40, 0x5e, 0x60, 0x7e]

/-- Mirrors the `CLASS_SET_SYNTAX_CHARACTER` set in `src/validator.rs`. -/
def CLASS_SET_SYNTAX_CHARACTER : List Nat :=
  [0x28, 0x29, 0x5b, 0x5d, 0x7b, 0x7d, 0x2f, 0x2d, 0x5c, 0x7c]

/-- Mirrors the `CLASS_SET_RESERVED_PUNCTUATOR` set in `src/validator.rs`. -/
def CLASS_SET_RESERVED_PUNCTUATOR : List Nat :=
  [0x26, 0x2d, 0x21, 0x23, 0x25, 0x2c, 0x3a, 0x3b, 0x3c, 0x3d, 0x3e,
   0x40, 0x60, 0x7e]

/-- Mirrors `is_syntax_character` in `src/validator.rs`. -/
def is_syntax_character (cp : Nat) : Bool := SYNTAX_CHARACTER.contains cp

/-- Mirrors `is_class_set_reserved_double_punctuator_character` in
`src/validator.rs` (false on `None`). -/
def is_class_set_reserved_double_punctuator_character
    (cp : Option Nat) : Bool :=
  match cp with
  | some cp => CLASS_SET_RESERVED_DOUBLE_PUNCTUATOR_CHARACTER.contains cp
  | none => false

/-- Mirrors `is_class_set_syntax_character` in `src/validator.rs`. -/
def is_class_set_syntax_character (cp : Nat) : Bool :=
  CLASS_SET_SYNTAX_CHARACTER.contains cp

/-- Mirrors `is_class_set_reserved_punctuator` in `src/validator.rs`. -/
def is_class_set_reserved_punctuator (cp : Option Nat) : Bool :=
  match cp with
  | some cp => CLASS_SET_RESERVED_PUNCTUATOR.contains cp
  | none => false

/-- Mirrors `enum AssertionKind` in `src/validator.rs`. -/
inductive AssertionKind
  | lookahead
  | lookbehind
  | end_
  | start
  | word
deriving Repr, DecidableEq

/-- Mirrors `enum CharacterKind` in `src/validator.rs`. -/
inductive CharacterKind
  | any
  | digit
  | space
  | word
  | property
deriving Repr, DecidableEq

/-- Mirrors `enum CapturingGroupKey` in `src/validator.rs`; a name is a
WTF-16 unit sequence. -/
inductive CapturingGroupKey
  | index (n : Nat)
  | name (s : List Nat)
deriving Repr, DecidableEq

/-- Mirrors `struct RegExpFlags` in `src/validator.rs`. -/
structure RegExpFlags where
  global : Bool
  ignore_case : Bool
  multiline : Bool
  unicode : Bool
  sticky : Bool
  dot_all : Bool
  has_indices : Bool
  unicode_sets : Bool
deriving Repr, DecidableEq

/-- Mirrors `struct ValidatePatternFlags` in `src/validator.rs`. -/
structure ValidatePatternFlags where
  unicode : Option Bool := none
  unicode_sets : Option Bool := none
deriving Repr, DecidableEq

/-- Mirrors `struct Mode` in `src/validator.rs`. -/
structure Mode where
  unicode_mode : Bool
  n_flag : Bool
  unicode_sets_mode : Bool
deriving Repr, DecidableEq

/-- Mirrors `struct UnicodeSetsConsumeResult` in `src/validator.rs`
(`Default` is `may_contain_strings := none`). -/
structure UnicodeSetsConsumeResult where
  may_contain_strings : Option Bool := none
deriving Repr, DecidableEq

/-- Mirrors `struct UnicodePropertyValueExpressionConsumeResult` in
`src/validator.rs`. -/
structure UnicodePropertyValueExpressionConsumeResult where
  key : List Nat
  value : Option (List Nat)
  strings : Option Bool
deriving Repr, DecidableEq

/-- Mirrors `struct RaiseContext` in `src/validator.rs`. -/
structure RaiseContext where
  index : Option Nat := none
  unicode : Option Bool := none
  unicode_sets : Option Bool := none
deriving Repr, DecidableEq

/-- Mirrors `enum RegExpValidatorSourceContextKind` in `src/validator.rs`. -/
inductive SourceContextKind
  | flags
  | literal
  | pattern
deriving Repr, DecidableEq

/-- Mirrors `struct RegExpValidatorSourceContext` in `src/validator.rs`. -/
structure RegExpValidatorSourceContext where
  source : List Nat
  start : Nat
  end_ : Nat
  kind : SourceContextKind
deriving Repr, DecidableEq

/-- Mirrors `struct RegExpSyntaxError` in `src/regexp_syntax_error.rs`. -/
structure RegExpSyntaxError where
  message : String
  index : Nat
deriving Repr, DecidableEq

/-- Mirrors `struct Flags` in `src/regexp_syntax_error.rs`. -/
structure ErrorFlags where
  unicode : Bool
  unicode_sets : Bool
deriving Repr, DecidableEq

/-- Mirrors `new_reg_exp_syntax_error` in `src/regexp_syntax_error.rs`.
The slice of the source context can panic (`Except.error ()`) when the
stored bounds do not fit the stored source. -/
def new_reg_exp_syntax_error (src_ctx : RegExpValidatorSourceContext)
    (flags : ErrorFlags) (index : Nat) (message : String) :
    Except Unit RegExpSyntaxError :=
  match src_ctx.kind with
  | SourceContextKind.flags =>
    Except.ok
      { message := "Invalid regular expression: " ++ message, index := index }
  | SourceContextKind.literal => do
    let literal ← sliceUnits src_ctx.source src_ctx.start src_ctx.end_
    let source :=
      if literal.isEmpty then "" else ": " ++ wtf16Display literal
    Except.ok
      { message := "Invalid regular expression" ++ source ++ ": " ++ message
        index := index }
  | SourceContextKind.pattern => do
    let pattern ← sliceUnits src_ctx.source src_ctx.start src_ctx.end_
    let flags_text :=
      (if flags.unicode then "u" else "") ++
        (if flags.unicode_sets then "v" else "")
    Except.ok
      { message := "Invalid regular expression: /" ++ wtf16Display pattern ++
          "/" ++ flags_text ++ ": " ++ message
        index := index }

/-- The grammar events the validator sends to its `Options` sink
(`trait Options` in `src/validator.rs`), recorded in emission order. -/
inductive VEvent
  | onRegExpFlags (start end_ : Nat) (flags : RegExpFlags)
  | onPatternEnter (start : Nat)
  | onPatternLeave (start end_ : Nat)
  | onDisjunctionEnter (start : Nat)
  | onDisjunctionLeave (start end_ : Nat)
  | onAlternativeEnter (start index : Nat)
  | onAlternativeLeave (start end_ index : Nat)
  | onGroupEnter (start : Nat)
  | onGroupLeave (start end_ : Nat)
  | onCapturingGroupEnter (start : Nat) (name : Option (List Nat))
  | onCapturingGroupLeave (start end_ : Nat) (name : Option (List Nat))
  | onQuantifier (start end_ min max : Nat) (greedy : Bool)
  | onLookaroundAssertionEnter (start : Nat) (kind : AssertionKind)
      (negate : Bool)
  | onLookaroundAssertionLeave (start end_ : Nat) (kind : AssertionKind)
      (negate : Bool)
  | onEdgeAssertion (start end_ : Nat) (kind : AssertionKind)
  | onWordBoundaryAssertion (start end_ : Nat) (kind : AssertionKind)
      (negate : Bool)
  | onAnyCharacterSet (start end_ : Nat) (kind : CharacterKind)
  | onEscapeCharacterSet (start end_ : Nat) (kind : CharacterKind)
      (negate : Bool)
  | onUnicodePropertyCharacterSet (start end_ : Nat) (kind : CharacterKind)
      (key : List Nat) (value : Option (List Nat)) (negate strings : Bool)
  | onCharacter (start end_ value : Nat)
  | onBackreference (start end_ : Nat) (ref_ : CapturingGroupKey)
  | onCharacterClassEnter (start : Nat) (negate unicode_sets : Bool)
  | onCharacterClassLeave (start end_ : Nat) (negate : Bool)
  | onCharacterClassRange (start end_ min max : Nat)
  | onClassIntersection (start end_ : Nat)
  | onClassSubtraction (start end_ : Nat)
  | onClassStringDisjunctionEnter (start : Nat)
  | onClassStringDisjunctionLeave (start end_ : Nat)
  | onStringAlternativeEnter (start index : Nat)
  | onStringAlternativeLeave (start end_ index : Nat)
deriving Repr, DecidableEq

/-- Failures of embedded validator code: `err` is a raised
`RegExpSyntaxError`, `panic` a Rust panic (including `unimplemented!()`
stubs), and `oof` means the structural fuel ran out (used only to make the
unbounded recursion of the descent a total Lean function). -/
inductive VErr
  | err (e : RegExpSyntaxError)
  | panic
  | oof
deriving Repr, DecidableEq

/-- The validator state, mirroring the fields of `struct RegExpValidator`
in `src/validator.rs`; `strict_opt` and `ecma_version_opt` are the
`Options` capabilities `strict()`/`ecma_version()`, and `events` records
the `on_*` callbacks issued so far (the hook methods only forward to the
options sink). `HashSet<Wtf16>` fields are lists without duplicates (the
code checks membership before inserting). -/
structure VState where
  reader : Reader
  unicode_mode : Bool
  unicode_sets_mode : Bool
  n_flag : Bool
  last_int_value : Option Nat
  last_range : Nat × Nat
  last_str_value : List Nat
  last_assertion_is_quantifiable : Bool
  num_capturing_parens : Nat
  group_names : List (List Nat)
  backreference_names : List (List Nat)
  src_ctx : Option RegExpValidatorSourceContext
  strict_opt : Option Bool
  ecma_version_opt : Option EcmaVersion
  events : List VEvent
deriving Repr, DecidableEq

/-- Mirrors `RegExpValidator::new` in `src/validator.rs` (with the given
options capabilities). `u32::MAX` is `2^32 - 1`. -/
def VState.new (strict_opt : Option Bool)
    (ecma_version_opt : Option EcmaVersion) : VState :=
  { reader := Reader.default
    unicode_mode := false
    unicode_sets_mode := false
    n_flag := false
    last_int_value := some 0
    last_range := (0, 4294967295)
    last_str_value := []
    last_assertion_is_quantifiable := false
    num_capturing_parens := 0
    group_names := []
    backreference_names := []
    src_ctx := none
    strict_opt := strict_opt
    ecma_version_opt := ecma_version_opt
    events := [] }

/-- Mirrors `RegExpValidator::strict` in `src/validator.rs`. -/
def VState.strict (s : VState) : Bool :=
  s.strict_opt.getD false || s.unicode_mode

/-- Mirrors `RegExpValidator::ecma_version` in `src/validator.rs`. -/
def VState.ecma_version (s : VState) : EcmaVersion :=
  s.ecma_version_opt.getD LATEST_ECMA_VERSION

/-- Mirrors `RegExpValidator::index`. -/
def VState.index (s : VState) : Nat := s.reader.i

/-- Mirrors `RegExpValidator::current_code_point`. -/
def VState.current_code_point (s : VState) : Option Nat := s.reader.cp1

/-- Mirrors `RegExpValidator::next_code_point`. -/
def VState.next_code_point (s : VState) : Option Nat := s.reader.cp2

/-- Mirrors `RegExpValidator::next_code_point2`. -/
def VState.next_code_point2 (s : VState) : Option Nat := s.reader.cp3

/-- Mirrors `RegExpValidator::next_code_point3`. -/
def VState.next_code_point3 (s : VState) : Option Nat := s.reader.cp4

/-- Appends one callback to the event log (each `on_*` hook method of the
validator only forwards its arguments to the options sink). -/
def VState.emit (s : VState) (ev : VEvent) : VState :=
  { s with events := s.events ++ [ev] }

/-- Mirrors `RegExpValidator::reset` (a reader panic becomes `VErr.panic`). -/
def VState.reset (s : VState) (source : List Nat) (start end_ : Nat) :
    Except VErr VState :=
  match s.reader.reset source start end_ s.unicode_mode with
  | Except.ok r => Except.ok { s with reader := r }
  | Except.error _ => Except.error VErr.panic

/-- Mirrors `RegExpValidator::rewind`. -/
def VState.rewind (s : VState) (index : Nat) : Except VErr VState :=
  match s.reader.rewind index with
  | Except.ok r => Except.ok { s with reader := r }
  | Except.error _ => Except.error VErr.panic

/-- Mirrors `RegExpValidator::advance`. -/
def VState.advance (s : VState) : Except VErr VState :=
  match s.reader.advance with
  | Except.ok r => Except.ok { s with reader := r }
  | Except.error _ => Except.error VErr.panic

/-- Mirrors `RegExpValidator::eat`. -/
def VState.eat (s : VState) (cp : Nat) : Except VErr (Bool × VState) :=
  match s.reader.eat cp with
  | Except.ok (b, r) => Except.ok (b, { s with reader := r })
  | Except.error _ => Except.error VErr.panic

/-- Mirrors `RegExpValidator::eat2`. -/
def VState.eat2 (s : VState) (cp1 cp2 : Nat) : Except VErr (Bool × VState) :=
  match s.reader.eat2 cp1 cp2 with
  | Except.ok (b, r) => Except.ok (b, { s with reader := r })
  | Except.error _ => Except.error VErr.panic

/-- Mirrors `RegExpValidator::eat3`. -/
def VState.eat3 (s : VState) (cp1 cp2 cp3 : Nat) :
    Except VErr (Bool × VState) :=
  match s.reader.eat3 cp1 cp2 cp3 with
  | Except.ok (b, r) => Except.ok (b, { s with reader := r })
  | Except.error _ => Except.error VErr.panic

/-- The error value produced by `RegExpValidator::raise` in
`src/validator.rs`: unwraps the source context (panicking when absent),
fills the flag/index defaults from the current modes and reader position,
and builds the `RegExpSyntaxError`. -/
def VState.raiseErr (s : VState) (message : String)
    (context : Option RaiseContext) : VErr :=
  match s.src_ctx with
  | none => VErr.panic
  | some ctx =>
    let unicode := (context.bind (fun c => c.unicode)).getD
      (s.unicode_mode && !s.unicode_sets_mode)
    let unicode_sets := (context.bind (fun c => c.unicode_sets)).getD
      s.unicode_sets_mode
    let index := (context.bind (fun c => c.index)).getD s.index
    match new_reg_exp_syntax_error ctx
        { unicode := unicode, unicode_sets := unicode_sets } index message with
    | Except.ok e => VErr.err e
    | Except.error _ => VErr.panic

/-- Short-circuiting form of `raise`: in the Rust code every call site is
`self.raise(..)?`, which always propagates the freshly built error. -/
def VState.raise (s : VState) (message : String)
    (context : Option RaiseContext) : Except VErr α :=
  Except.error (s.raiseErr message context)

/-- Loop of `eat_decimal_digits` (`src/validator.rs`): while the current
code point is a decimal digit, accumulate `10 * acc + digit` (a `u32`
debug-build overflow is a panic) and advance. The fuel argument only makes
the recursion structural; the wrapper passes enough for any reachable
state. -/
def eat_decimal_digits_loop : Nat → VState → Except VErr VState
  | 0, _ => Except.error VErr.oof
  | fuel + 1, s =>
    match s.current_code_point with
    | some cp =>
      if is_decimal_digit cp then
        match s.last_int_value with
        | none => Except.error VErr.panic
        | some lv =>
          if 10 * lv + digit_to_int cp < 4294967296 then do
            let s := { s with
              last_int_value := some (10 * lv + digit_to_int cp) }
            let s ← s.advance
            eat_decimal_digits_loop fuel s
          else Except.error VErr.panic
      else Except.ok s
    | none => Except.ok s

/-- Mirrors `eat_decimal_digits` in `src/validator.rs`. -/
def eat_decimal_digits (s : VState) : Except VErr (Bool × VState) := do
  let start := s.index
  let s := { s with last_int_value := some 0 }
  let s ← eat_decimal_digits_loop (s.reader.end_ + 1 - s.reader.i) s
  Except.ok (s.index != start, s)

/-- Loop of `eat_decimal_escape` (`src/validator.rs`). Note that the Rust
body accumulates `cp_present - DIGIT_ZERO` where `cp_present` is the
pattern binding of the first digit, fixed for the whole loop (unlike the
current code point re-read by the loop condition). -/
def eat_decimal_escape_loop : Nat → VState → Nat → Except VErr VState
  | 0, _, _ => Except.error VErr.oof
  | fuel + 1, s, cp_present =>
    match s.last_int_value with
    | none => Except.error VErr.panic
    | some lv =>
      if 10 * lv + (cp_present - 0x30) < 4294967296 then do
        let s := { s with
          last_int_value := some (10 * lv + (cp_present - 0x30)) }
        let s ← s.advance
        match s.current_code_point with
        | some cp =>
          if 0x30 ≤ cp ∧ cp ≤ 0x39 then
            eat_decimal_escape_loop fuel s cp_present
          else Except.ok s
        | none => Except.ok s
      else Except.error VErr.panic

/-- Mirrors `eat_decimal_escape` in `src/validator.rs`. -/
def eat_decimal_escape (s : VState) : Except VErr (Bool × VState) :=
  let s := { s with last_int_value := some 0 }
  match s.current_code_point with
  | some cp =>
    if 0x31 ≤ cp ∧ cp ≤ 0x39 then do
      let s ← eat_decimal_escape_loop (s.reader.end_ + 1 - s.reader.i) s cp
      Except.ok (true, s)
    else Except.ok (false, s)
  | none => Except.ok (false, s)

/-- Mirrors `eat_control_escape` in `src/validator.rs` (`\f \n \r \t \v`). -/
def eat_control_escape (s : VState) : Except VErr (Bool × VState) := do
  let (b, s) ← s.eat 0x66
  if b then
    Except.ok (true, { s with last_int_value := some 0x0c })
  else do
    let (b, s) ← s.eat 0x6e
    if b then
      Except.ok (true, { s with last_int_value := some 0x0a })
    else do
      let (b, s) ← s.eat 0x72
      if b then
        Except.ok (true, { s with last_int_value := some 0x0d })
      else do
        let (b, s) ← s.eat 0x74
        if b then
          Except.ok (true, { s with last_int_value := some 0x09 })
        else do
          let (b, s) ← s.eat 0x76
          if b then
            Except.ok (true, { s with last_int_value := some 0x0b })
          else
            Except.ok (false, s)

/-- Modelled from the spec: `eat_control_letter` is an `unimplemented!()`
stub in `src/validator.rs`. Per the grammar behind §4.2 (`\c<letter>`), a
single ASCII letter is consumed and `_last_int_value` becomes its value
modulo 32. -/
def eat_control_letter (s : VState) : Except VErr (Bool × VState) :=
  match s.current_code_point with
  | some cp =>
    if (0x41 ≤ cp ∧ cp ≤ 0x5a) ∨ (0x61 ≤ cp ∧ cp ≤ 0x7a) then do
      let s := { s with last_int_value := some (cp % 32) }
      let s ← s.advance
      Except.ok (true, s)
    else Except.ok (false, s)
  | none => Except.ok (false, s)

/-- Mirrors `eat_c_control_letter` in `src/validator.rs`. -/
def eat_c_control_letter (s : VState) : Except VErr (Bool × VState) := do
  let start := s.index
  let (b, s) ← s.eat 0x63
  if b then do
    let (b, s) ← eat_control_letter s
    if b then
      Except.ok (true, s)
    else do
      let s ← s.rewind start
      Except.ok (false, s)
  else
    Except.ok (false, s)

/-- Mirrors `eat_zero` in `src/validator.rs`. -/
def eat_zero (s : VState) : Except VErr (Bool × VState) :=
  if s.current_code_point = some 0x30 ∧
      (match s.next_code_point with
       | some next => is_decimal_digit next
       | none => false) = false then do
    let s := { s with last_int_value := some 0 }
    let s ← s.advance
    Except.ok (true, s)
  else
    Except.ok (false, s)

/-- Hexadecimal-digit test used by the modelled hex scanners. -/
def isHexDigit (cp : Nat) : Bool :=
  is_decimal_digit cp || (0x61 ≤ cp && cp ≤ 0x66) ||
    (0x41 ≤ cp && cp ≤ 0x46)

/-- Loop of the modelled `eat_fixed_hex_digits`, structural on the number
of digits still required. -/
def eat_fixed_hex_digits_loop : Nat → VState → Except VErr (Bool × VState)
  | 0, s => Except.ok (true, s)
  | n + 1, s =>
    match s.current_code_point with
    | some cp =>
      if isHexDigit cp then do
        let s := { s with
          last_int_value :=
            some (16 * s.last_int_value.getD 0 + digit_to_int cp) }
        let s ← s.advance
        eat_fixed_hex_digits_loop n s
      else Except.ok (false, s)
    | none => Except.ok (false, s)

/-- Modelled from the spec: `eat_fixed_hex_digits` is an `unimplemented!()`
stub in `src/validator.rs`. Scans exactly `length` hexadecimal digits into
`_last_int_value`, rewinding and returning false when fewer are present. -/
def eat_fixed_hex_digits (s : VState) (length : Nat) :
    Except VErr (Bool × VState) := do
  let start := s.index
  let s := { s with last_int_value := some 0 }
  let (b, s) ← eat_fixed_hex_digits_loop length s
  if b then
    Except.ok (true, s)
  else do
    let s ← s.rewind start
    Except.ok (false, s)

/-- Mirrors `eat_hex_escape_sequence` in `src/validator.rs`. -/
def eat_hex_escape_sequence (s : VState) : Except VErr (Bool × VState) := do
  let start := s.index
  let (b, s) ← s.eat 0x78
  if b then do
    let (b, s) ← eat_fixed_hex_digits s 2
    if b then
      Except.ok (true, s)
    else
      if s.unicode_mode || s.strict then
        s.raise "Invalid escape" none
      else do
        let s ← s.rewind start
        Except.ok (false, s)
  else
    Except.ok (false, s)

/-- Loop of the modelled braced unicode escape: one-or-more hex digits. -/
def eat_braced_hex_digits_loop : Nat → VState → Except VErr VState
  | 0, _ => Except.error VErr.oof
  | fuel + 1, s =>
    match s.current_code_point with
    | some cp =>
      if isHexDigit cp then do
        let s := { s with
          last_int_value :=
            some (16 * s.last_int_value.getD 0 + digit_to_int cp) }
        let s ← s.advance
        eat_braced_hex_digits_loop fuel s
      else Except.ok s
    | none => Except.ok s

/-- Modelled from the spec: `eat_reg_exp_unicode_escape_sequence` is an
`unimplemented!()` stub in `src/validator.rs`. Models the
RegExpUnicodeEscapeSequence production of §4.2: `u` followed by four hex
digits (with lead/trail surrogate pairs combined in unicode mode), or
`u{ HexDigits }` of at most `0x10FFFF` in unicode mode; a malformed escape
raises `Invalid unicode escape` in unicode/strict mode and otherwise
rewinds and fails. -/
def eat_reg_exp_unicode_escape_sequence (s : VState)
    (force_u_flag : Bool) : Except VErr (Bool × VState) := do
  let start := s.index
  let u_flag := s.unicode_mode || force_u_flag
  let (b, s) ← s.eat 0x75
  if !b then
    Except.ok (false, s)
  else do
    let (br, s) ← s.eat 0x7b
    if br && u_flag then do
      let s := { s with last_int_value := some 0 }
      let s ← eat_braced_hex_digits_loop (s.reader.end_ + 1 - s.reader.i) s
      let (bc, s) ← s.eat 0x7d
      if bc && s.last_int_value.getD 0 ≤ 0x10ffff then
        Except.ok (true, s)
      else
        if u_flag || s.strict then
          s.raise "Invalid unicode escape" none
        else do
          let s ← s.rewind start
          Except.ok (false, s)
    else do
      let s ← if br then s.rewind (start + 1) else Except.ok s
      let (b4, s) ← eat_fixed_hex_digits s 4
      if b4 then do
        let lead := s.last_int_value.getD 0
        if u_flag && is_lead_surrogate lead then do
          let mid := s.index
          let (bs, s) ← s.eat2 0x5c 0x75
          if bs then do
            let (bt, s) ← eat_fixed_hex_digits s 4
            let trail := s.last_int_value.getD 0
            if bt && is_trail_surrogate trail then
              Except.ok (true, { s with
                last_int_value :=
                  some (combine_surrogate_pair lead trail) })
            else do
              let s ← s.rewind mid
              Except.ok (true, { s with last_int_value := some lead })
          else
            Except.ok (true, { s with last_int_value := some lead })
        else
          Except.ok (true, s)
      else
        if u_flag || s.strict then
          s.raise "Invalid unicode escape" none
        else do
          let s ← s.rewind start
          Except.ok (false, s)

/-- Modelled from the spec: `eat_identity_escape` is an `unimplemented!()`
stub in `src/validator.rs`. In unicode mode only a SyntaxCharacter or `/`
may be identity-escaped; in legacy mode any source character other than
`c` (and other than `k` when named-group mode is on) may. -/
def eat_identity_escape (s : VState) : Except VErr (Bool × VState) :=
  match s.current_code_point with
  | some cp =>
    if s.unicode_mode then
      if is_syntax_character cp || cp = 0x2f then do
        let s := { s with last_int_value := some cp }
        let s ← s.advance
        Except.ok (true, s)
      else Except.ok (false, s)
    else
      if cp ≠ 0x63 ∧ (¬ s.n_flag ∨ cp ≠ 0x6b) then do
        let s := { s with last_int_value := some cp }
        let s ← s.advance
        Except.ok (true, s)
      else Except.ok (false, s)
  | none => Except.ok (false, s)

/-- Single octal digit for the modelled legacy octal escape. -/
def eat_octal_digit (s : VState) : Except VErr (Bool × VState) :=
  match s.current_code_point with
  | some cp =>
    if 0x30 ≤ cp ∧ cp ≤ 0x37 then do
      let s := { s with last_int_value := some (cp - 0x30) }
      let s ← s.advance
      Except.ok (true, s)
    else Except.ok (false, s)
  | none => Except.ok (false, s)

/-- Modelled from the spec: `eat_legacy_octal_escape_sequence` is an
`unimplemented!()` stub in `src/validator.rs`. Models the legacy
OctalEscapeSequence (§4.2, forbidden in strict mode by its caller): up to
three octal digits, with a third digit only when the first is at most 3. -/
def eat_legacy_octal_escape_sequence (s : VState) :
    Except VErr (Bool × VState) := do
  let (b1, s) ← eat_octal_digit s
  if b1 then do
    let n1 := s.last_int_value.getD 0
    let (b2, s) ← eat_octal_digit s
    if b2 then do
      let n2 := s.last_int_value.getD 0
      if n1 ≤ 3 then do
        let (b3, s) ← eat_octal_digit s
        if b3 then
          Except.ok (true, { s with
            last_int_value :=
              some (n1 * 64 + n2 * 8 + s.last_int_value.getD 0) })
        else
          Except.ok (true, { s with last_int_value := some (n1 * 8 + n2) })
      else
        Except.ok (true, { s with last_int_value := some (n1 * 8 + n2) })
    else
      Except.ok (true, { s with last_int_value := some n1 })
  else
    Except.ok (false, s)

/-- Loop of the modelled identifier-name scanner: IdentifierPart*. -/
def eat_reg_exp_identifier_name_loop :
    Nat → VState → List Nat → Except VErr (List Nat × VState)
  | 0, _, _ => Except.error VErr.oof
  | fuel + 1, s, acc =>
    match s.current_code_point with
    | some cp =>
      match is_id_continue cp with
      | Except.error _ => Except.error VErr.panic
      | Except.ok true => do
        let s ← s.advance
        eat_reg_exp_identifier_name_loop fuel s (acc ++ [cp])
      | Except.ok false => Except.ok (acc, s)
    | none => Except.ok (acc, s)

/-- Modelled from the spec: `eat_reg_exp_identifier_name` is an
`unimplemented!()` stub in `src/validator.rs`. Models the group-name
production of §4.2.2: IdentifierStart IdentifierPart*, classified by the
`is_id_start`/`is_id_continue` tables of `src/unicode/ids.rs`, recording
the consumed name in `_last_str_value` (the `\u`-escaped spelling of
identifiers is not modelled). -/
def eat_reg_exp_identifier_name (s : VState) :
    Except VErr (Bool × VState) :=
  match s.current_code_point with
  | some cp =>
    match is_id_start cp with
    | Except.error _ => Except.error VErr.panic
    | Except.ok true => do
      let s ← s.advance
      let (name, s) ←
        eat_reg_exp_identifier_name_loop (s.reader.end_ + 1 - s.reader.i) s
          [cp]
      Except.ok (true, { s with last_str_value := name })
    | Except.ok false => Except.ok (false, s)
  | none => Except.ok (false, s)

/-- Mirrors `eat_group_name` in `src/validator.rs`. -/
def eat_group_name (s : VState) : Except VErr (Bool × VState) := do
  let (b, s) ← s.eat 0x3c
  if b then do
    let (b, s) ← eat_reg_exp_identifier_name s
    if b then do
      let (b, s) ← s.eat 0x3e
      if b then
        Except.ok (true, s)
      else
        s.raise "Invalid capture group name" none
    else
      s.raise "Invalid capture group name" none
  else
    Except.ok (false, s)

/-- Mirrors `consume_group_specifier` in `src/validator.rs`. -/
def consume_group_specifier (s : VState) : Except VErr (Bool × VState) := do
  let (b, s) ← s.eat 0x3f
  if b then do
    let (b, s) ← eat_group_name s
    if b then
      if !s.group_names.contains s.last_str_value then
        Except.ok (true, { s with
          group_names := s.group_names ++ [s.last_str_value] })
      else
        s.raise "Duplicate capture group name" none
    else
      s.raise "Invalid group" none
  else
    Except.ok (false, s)

/-- Mirrors `consume_pattern_character` in `src/validator.rs`. -/
def consume_pattern_character (s : VState) : Except VErr (Bool × VState) := do
  let start := s.index
  match s.current_code_point with
  | some cp =>
    if !is_syntax_character cp then do
      let s ← s.advance
      Except.ok (true, s.emit (VEvent.onCharacter start s.index cp))
    else Except.ok (false, s)
  | none => Except.ok (false, s)

/-- Mirrors `consume_extended_pattern_character` in `src/validator.rs`. -/
def consume_extended_pattern_character (s : VState) :
    Except VErr (Bool × VState) := do
  let start := s.index
  match s.current_code_point with
  | some cp =>
    if cp = 0x5e ∨ cp = 0x24 ∨ cp = 0x5c ∨ cp = 0x2e ∨ cp = 0x2a ∨
        cp = 0x2b ∨ cp = 0x3f ∨ cp = 0x28 ∨ cp = 0x29 ∨ cp = 0x5b ∨
        cp = 0x7c then
      Except.ok (false, s)
    else do
      let s ← s.advance
      Except.ok (true, s.emit (VEvent.onCharacter start s.index cp))
  | none => Except.ok (false, s)

/-- Mirrors `consume_dot` in `src/validator.rs`. -/
def consume_dot (s : VState) : Except VErr (Bool × VState) := do
  let (b, s) ← s.eat 0x2e
  if b then
    Except.ok (true,
      s.emit (VEvent.onAnyCharacterSet (s.index - 1) s.index
        CharacterKind.any))
  else Except.ok (false, s)

/-- Mirrors `consume_reverse_solidus_followed_by_c` in `src/validator.rs`. -/
def consume_reverse_solidus_followed_by_c (s : VState) :
    Except VErr (Bool × VState) := do
  let start := s.index
  if s.current_code_point = some 0x5c ∧ s.next_code_point = some 0x63 then do
    let s := { s with last_int_value := s.current_code_point }
    let s ← s.advance
    Except.ok (true, s.emit (VEvent.onCharacter start s.index 0x5c))
  else Except.ok (false, s)

/-- Mirrors `consume_backreference` in `src/validator.rs`. -/
def consume_backreference (s : VState) : Except VErr (Bool × VState) := do
  let start := s.index
  let (b, s) ← eat_decimal_escape s
  if b then
    match s.last_int_value with
    | none => Except.error VErr.panic
    | some n =>
      if n ≤ s.num_capturing_parens then
        Except.ok (true,
          s.emit (VEvent.onBackreference (start - 1) s.index
            (CapturingGroupKey.index n)))
      else
        if s.strict || s.unicode_mode then
          s.raise "Invalid escape" none
        else do
          let s ← s.rewind start
          Except.ok (false, s)
  else Except.ok (false, s)

/-- List of WTF-16 spellings of the Unicode properties of strings, for the
modelled property oracle (the spec treats the property tables as an opaque
oracle; `RGI_Emoji` is the spec's example). -/
def PROPERTY_OF_STRINGS_NAMES : List (List Nat) :=
  [[0x42, 0x61, 0x73, 0x69, 0x63, 0x5f, 0x45, 0x6d, 0x6f, 0x6a, 0x69],
   [0x52, 0x47, 0x49, 0x5f, 0x45, 0x6d, 0x6f, 0x6a, 0x69]]

/-- Character test for the modelled Unicode property names and values. -/
def isPropertyNameChar (cp : Nat) : Bool :=
  (0x41 ≤ cp && cp ≤ 0x5a) || (0x61 ≤ cp && cp ≤ 0x7a) || cp = 0x5f ||
    is_decimal_digit cp

/-- Scanning loop of the modelled property-expression reader. -/
def eat_property_name_loop :
    Nat → VState → List Nat → Except VErr (List Nat × VState)
  | 0, _, _ => Except.error VErr.oof
  | fuel + 1, s, acc =>
    match s.current_code_point with
    | some cp =>
      if isPropertyNameChar cp then do
        let s ← s.advance
        eat_property_name_loop fuel s (acc ++ [cp])
      else Except.ok (acc, s)
    | none => Except.ok (acc, s)

/-- Modelled from the spec: `eat_unicode_property_value_expression` is an
`unimplemented!()` stub in `src/validator.rs`. Models §4.2.6 with the
property tables as an opaque oracle that accepts every syntactically
well-formed name: scans `Name` or `Name=Value`; a lone name is a property
of strings (`strings = Some(true)`) exactly when unicode-sets mode is on
and the name is in `PROPERTY_OF_STRINGS_NAMES`; a `Name=Value` expression
has `strings = Some(false)`. -/
def eat_unicode_property_value_expression (s : VState) :
    Except VErr (Option UnicodePropertyValueExpressionConsumeResult ×
      VState) := do
  let (name, s) ←
    eat_property_name_loop (s.reader.end_ + 1 - s.reader.i) s []
  if name.isEmpty then
    Except.ok (none, s)
  else do
    let (beq, s) ← s.eat 0x3d
    if beq then do
      let (value, s) ←
        eat_property_name_loop (s.reader.end_ + 1 - s.reader.i) s []
      if value.isEmpty then
        Except.ok (none, s)
      else
        Except.ok (some { key := name
                          value := some value
                          strings := some false }, s)
    else
      Except.ok (some { key := name
                        value := none
                        strings := some (s.unicode_sets_mode &&
                          PROPERTY_OF_STRINGS_NAMES.contains name) }, s)

/-- Mirrors `consume_character_class_escape` in `src/validator.rs`
(`\d \D \s \S \w \W` and the `\p`/`\P` property escapes). -/
def consume_character_class_escape (s : VState) :
    Except VErr (Option UnicodeSetsConsumeResult × VState) := do
  let start := s.index
  let (b, s) ← s.eat 0x64
  if b then
    let s := { s with last_int_value := none }
    Except.ok (some {},
      s.emit (VEvent.onEscapeCharacterSet (start - 1) s.index
        CharacterKind.digit false))
  else do
  let (b, s) ← s.eat 0x44
  if b then
    let s := { s with last_int_value := none }
    Except.ok (some {},
      s.emit (VEvent.onEscapeCharacterSet (start - 1) s.index
        CharacterKind.digit true))
  else do
  let (b, s) ← s.eat 0x73
  if b then
    let s := { s with last_int_value := none }
    Except.ok (some {},
      s.emit (VEvent.onEscapeCharacterSet (start - 1) s.index
        CharacterKind.space false))
  else do
  let (b, s) ← s.eat 0x53
  if b then
    let s := { s with last_int_value := none }
    Except.ok (some {},
      s.emit (VEvent.onEscapeCharacterSet (start - 1) s.index
        CharacterKind.space true))
  else do
  let (b, s) ← s.eat 0x77
  if b then
    let s := { s with last_int_value := none }
    Except.ok (some {},
      s.emit (VEvent.onEscapeCharacterSet (start - 1) s.index
        CharacterKind.word false))
  else do
  let (b, s) ← s.eat 0x57
  if b then
    let s := { s with last_int_value := none }
    Except.ok (some {},
      s.emit (VEvent.onEscapeCharacterSet (start - 1) s.index
        CharacterKind.word true))
  else do
  if s.unicode_mode ∧ s.ecma_version ≥ 2018 then do
    let (bp, s) ← s.eat 0x70
    if bp then
      consume_character_class_escape_property start false s
    else do
      let (bP, s) ← s.eat 0x50
      if bP then
        consume_character_class_escape_property start true s
      else
        Except.ok (none, s)
  else
    Except.ok (none, s)
where
  /-- The shared `\p{…}`/`\P{…}` tail of `consume_character_class_escape`. -/
  consume_character_class_escape_property (start : Nat) (negate : Bool)
      (s : VState) :
      Except VErr (Option UnicodeSetsConsumeResult × VState) := do
    let s := { s with last_int_value := none }
    let (bl, s) ← s.eat 0x7b
    if bl then do
      let (result?, s) ← eat_unicode_property_value_expression s
      match result? with
      | some result => do
        let (bc, s) ← s.eat 0x7d
        if bc then
          if negate ∧ result.strings = some true then
            s.raise "Invalid property name" none
          else
            let s := s.emit (VEvent.onUnicodePropertyCharacterSet
              (start - 1) s.index CharacterKind.property result.key
              result.value negate (result.strings.getD false))
            Except.ok
              (some { may_contain_strings := result.strings }, s)
        else
          s.raise "Invalid property name" none
      | none => s.raise "Invalid property name" none
    else
      s.raise "Invalid property name" none

/-- The success tail of `consume_character_escape`: emit the character and
report true (the `.unwrap()` of `_last_int_value` panics when it is
`None`). -/
def consume_character_escape_finish (start : Nat) (s : VState) :
    Except VErr (Bool × VState) :=
  match s.last_int_value with
  | none => Except.error VErr.panic
  | some v =>
    Except.ok (true, s.emit (VEvent.onCharacter (start - 1) s.index v))

/-- Mirrors `consume_character_escape` in `src/validator.rs`: the
short-circuit chain of escape eaters followed by one `on_character`. -/
def consume_character_escape (s : VState) : Except VErr (Bool × VState) := do
  let start := s.index
  let (b, s) ← eat_control_escape s
  if b then consume_character_escape_finish start s else do
  let (b, s) ← eat_c_control_letter s
  if b then consume_character_escape_finish start s else do
  let (b, s) ← eat_zero s
  if b then consume_character_escape_finish start s else do
  let (b, s) ← eat_hex_escape_sequence s
  if b then consume_character_escape_finish start s else do
  let (b, s) ← eat_reg_exp_unicode_escape_sequence s false
  if b then consume_character_escape_finish start s else do
  let (b, s) ←
    if !s.strict && !s.unicode_mode then eat_legacy_octal_escape_sequence s
    else pure (false, s)
  if b then consume_character_escape_finish start s else do
  let (b, s) ← eat_identity_escape s
  if b then consume_character_escape_finish start s else
  Except.ok (false, s)

/-- Modelled from the spec: `consume_k_group_name` is an `unimplemented!()`
stub in `src/validator.rs`. Models §4.2.5: `\k<name>` records the name in
`_backreference_names`, emits `on_backreference` with the group name, and
an ill-formed name is an error. -/
def consume_k_group_name (s : VState) : Except VErr (Bool × VState) := do
  let start := s.index
  let (b, s) ← s.eat 0x6b
  if b then do
    let (b, s) ← eat_group_name s
    if b then
      let name := s.last_str_value
      let s := { s with
        backreference_names :=
          if s.backreference_names.contains name then s.backreference_names
          else s.backreference_names ++ [name] }
      Except.ok (true,
        s.emit (VEvent.onBackreference (start - 1) s.index
          (CapturingGroupKey.name name)))
    else
      s.raise "Invalid named reference" none
  else
    Except.ok (false, s)

/-- Mirrors `consume_atom_escape` in `src/validator.rs`. -/
def consume_atom_escape (s : VState) : Except VErr (Bool × VState) := do
  let (b, s) ← consume_backreference s
  if b then Except.ok (true, s) else do
  let (r, s) ← consume_character_class_escape s
  if r.isSome then Except.ok (true, s) else do
  let (b, s) ← consume_character_escape s
  if b then Except.ok (true, s) else do
  let (b, s) ← if s.n_flag then consume_k_group_name s else pure (false, s)
  if b then Except.ok (true, s) else
  if s.strict || s.unicode_mode then
    s.raise "Invalid escape" none
  else
    Except.ok (false, s)

/-- Mirrors `consume_reverse_solidus_atom_escape` in `src/validator.rs`. -/
def consume_reverse_solidus_atom_escape (s : VState) :
    Except VErr (Bool × VState) := do
  let start := s.index
  let (b, s) ← s.eat 0x5c
  if b then do
    let (b, s) ← consume_atom_escape s
    if b then
      Except.ok (true, s)
    else do
      let s ← s.rewind start
      Except.ok (false, s)
  else
    Except.ok (false, s)

/-- Mirrors `consume_class_escape` in `src/validator.rs`: the body is the
`unimplemented!()` macro, so every call panics. -/
def consume_class_escape (_s : VState) : Except VErr (Bool × VState) :=
  Except.error VErr.panic

/-- Mirrors `consume_class_atom` in `src/validator.rs`. -/
def consume_class_atom (s : VState) : Except VErr (Bool × VState) := do
  let start := s.index
  match s.current_code_point with
  | some cp =>
    if cp ≠ 0x5c ∧ cp ≠ 0x5d then do
      let s ← s.advance
      let s := { s with last_int_value := some cp }
      Except.ok (true, s.emit (VEvent.onCharacter start s.index cp))
    else consume_class_atom_tail start s
  | none => consume_class_atom_tail start s
where
  /-- The `\`-escape tail of `consume_class_atom`. -/
  consume_class_atom_tail (start : Nat) (s : VState) :
      Except VErr (Bool × VState) := do
    let (b, s) ← s.eat 0x5c
    if b then do
      let (b, s) ← consume_class_escape s
      if b then
        Except.ok (true, s)
      else if !s.strict ∧ s.current_code_point = some 0x63 then
        let s := { s with last_int_value := some 0x5c }
        Except.ok (true, s.emit (VEvent.onCharacter start s.index 0x5c))
      else if s.strict ∨ s.unicode_mode then
        s.raise "Invalid escape" none
      else do
        let s ← s.rewind start
        Except.ok (false, s)
    else
      Except.ok (false, s)

/-- The tail shared by `consume_class_set_character`'s `\`-escape branch
(`src/validator.rs`, lines 1630-1646). -/
def consume_class_set_character_tail (start : Nat) (s : VState) :
    Except VErr (Bool × VState) := do
  let (b, s) ← s.eat 0x5c
  if b then do
    let (b, s) ← consume_character_escape s
    if b then
      Except.ok (true, s)
    else if is_class_set_reserved_punctuator s.current_code_point then
      match s.current_code_point with
      | some c => do
        let s := { s with last_int_value := some c }
        let s ← s.advance
        Except.ok (true, s.emit (VEvent.onCharacter start s.index c))
      | none => Except.error VErr.panic
    else do
      let (b, s) ← s.eat 0x62
      if b then
        let s := { s with last_int_value := some 0x08 }
        Except.ok (true, s.emit (VEvent.onCharacter start s.index 0x08))
      else do
        let s ← s.rewind start
        Except.ok (false, s)
  else
    Except.ok (false, s)

/-- Mirrors `consume_class_set_character` in `src/validator.rs`. -/
def consume_class_set_character (s : VState) :
    Except VErr (Bool × VState) := do
  let start := s.index
  let cp := s.current_code_point
  if cp ≠ s.next_code_point ∨
      ¬ is_class_set_reserved_double_punctuator_character cp then
    match cp with
    | some c =>
      if ¬ is_class_set_syntax_character c then do
        let s := { s with last_int_value := some c }
        let s ← s.advance
        Except.ok (true, s.emit (VEvent.onCharacter start s.index c))
      else consume_class_set_character_tail start s
    | none => consume_class_set_character_tail start s
  else consume_class_set_character_tail start s

/-- Loop of the modelled `consume_class_string`: ClassSetCharacter*. -/
def consume_class_string_loop : Nat → VState → Except VErr VState
  | 0, _ => Except.error VErr.oof
  | fuel + 1, s => do
    let (b, s) ← consume_class_set_character s
    if b then consume_class_string_loop fuel s else Except.ok s

/-- Modelled from the spec: `consume_class_string` is an `unimplemented!()`
stub in `src/validator.rs`. Models the ClassString alternative of a
`\q{…}` disjunction (§4.2.4): a sequence of ClassSetCharacters bracketed
by `on_string_alternative_enter`/`leave`; per the spec sentence "Its
presence (or a Unicode property of strings) sets `mayContainStrings =
true` on the enclosing character class", the alternative reports
`may_contain_strings = Some(true)`. -/
def consume_class_string (s : VState) (i : Nat) :
    Except VErr (UnicodeSetsConsumeResult × VState) := do
  let start := s.index
  let s := s.emit (VEvent.onStringAlternativeEnter start i)
  let s ← consume_class_string_loop (s.reader.end_ + 1 - s.reader.i) s
  let s := s.emit (VEvent.onStringAlternativeLeave start s.index i)
  Except.ok ({ may_contain_strings := some true }, s)

/-- The alternatives loop of `consume_class_string_disjunction`. -/
def consume_class_string_disjunction_loop :
    Nat → VState → Nat → Bool → Except VErr (Bool × VState)
  | 0, _, _, _ => Except.error VErr.oof
  | fuel + 1, s, i, may => do
    let (res, s) ← consume_class_string s i
    let may := if res.may_contain_strings = some true then true else may
    let (b, s) ← s.eat 0x7c
    if b then consume_class_string_disjunction_loop fuel s (i + 1) may
    else Except.ok (may, s)

/-- Mirrors `consume_class_string_disjunction` in `src/validator.rs`. -/
def consume_class_string_disjunction (s : VState) :
    Except VErr (Option UnicodeSetsConsumeResult × VState) := do
  let start := s.index
  let (b, s) ← s.eat3 0x5c 0x71 0x7b
  if b then do
    let s := s.emit (VEvent.onClassStringDisjunctionEnter start)
    let (may, s) ←
      consume_class_string_disjunction_loop
        (s.reader.end_ + 1 - s.reader.i) s 0 false
    let (bc, s) ← s.eat 0x7d
    if bc then
      let s := s.emit (VEvent.onClassStringDisjunctionLeave start s.index)
      Except.ok (some { may_contain_strings := some may }, s)
    else
      s.raise "Unterminated class string disjunction" none
  else
    Except.ok (none, s)

/-- The shared failure tail of `eat_braced_quantifier`: a malformed brace
raises `Incomplete quantifier` in strict/unicode mode (unless errors are
suppressed) and otherwise rewinds. -/
def eat_braced_quantifier_tail (no_error : Bool) (start : Nat)
    (s : VState) : Except VErr (Bool × VState) := do
  if !no_error ∧ (s.unicode_mode ∨ s.strict) then
    s.raise "Incomplete quantifier" none
  else do
    let s ← s.rewind start
    Except.ok (false, s)

/-- Mirrors `eat_braced_quantifier` in `src/validator.rs`. -/
def eat_braced_quantifier (s : VState) (no_error : Bool) :
    Except VErr (Bool × VState) := do
  let start := s.index
  let (b, s) ← s.eat 0x7b
  if b then do
    let (bd, s) ← eat_decimal_digits s
    if bd then
      match s.last_int_value with
      | none => Except.error VErr.panic
      | some min_ => do
        let (bc, s) ← s.eat 0x2c
        let (max_, s) ←
          if bc then do
            let (bd2, s) ← eat_decimal_digits s
            if bd2 then
              match s.last_int_value with
              | none => Except.error VErr.panic
              | some m => pure (m, s)
            else pure ((4294967295 : Nat), s)
          else pure (min_, s)
        let (br, s) ← s.eat 0x7d
        if br then
          if !no_error ∧ max_ < min_ then
            s.raise "numbers out of order in \x7b\x7d quantifier" none
          else
            Except.ok (true, { s with last_range := (min_, max_) })
        else
          eat_braced_quantifier_tail no_error start s
    else
      eat_braced_quantifier_tail no_error start s
  else
    Except.ok (false, s)

/-- Mirrors `consume_quantifier` in `src/validator.rs`. -/
def consume_quantifier (s : VState) (no_consume_opt : Option Bool) :
    Except VErr (Bool × VState) := do
  let no_consume := no_consume_opt.getD false
  let start := s.index
  let (b, s) ← s.eat 0x2a
  let (found, min_, max_, s) ←
    if b then pure (true, 0, (4294967295 : Nat), s)
    else do
      let (b, s) ← s.eat 0x2b
      if b then pure (true, 1, (4294967295 : Nat), s)
      else do
        let (b, s) ← s.eat 0x3f
        if b then pure (true, 0, 1, s)
        else do
          let (b, s) ← eat_braced_quantifier s no_consume
          if b then pure (true, s.last_range.1, s.last_range.2, s)
          else pure (false, 0, 0, s)
  if found then do
    let (bq, s) ← s.eat 0x3f
    let greedy := !bq
    let s :=
      if !no_consume then
        s.emit (VEvent.onQuantifier start s.index min_ max_ greedy)
      else s
    Except.ok (true, s)
  else
    Except.ok (false, s)

/-- Mirrors `consume_invalid_braced_quantifier` in `src/validator.rs`. -/
def consume_invalid_braced_quantifier (s : VState) :
    Except VErr (Bool × VState) := do
  let (b, s) ← eat_braced_quantifier s true
  if b then
    s.raise "Nothing to repeat" none
  else
    Except.ok (false, s)

/-- Mirrors `consume_class_set_range_from_operator` in `src/validator.rs`. -/
def consume_class_set_range_from_operator (s : VState) (start : Nat) :
    Except VErr (Bool × VState) := do
  let current_start := s.index
  let min_ := s.last_int_value
  let (b, s) ← s.eat 0x2d
  if b then do
    let (b, s) ← consume_class_set_character s
    if b then do
      let max_ := s.last_int_value
      match min_, max_ with
      | some mn, some mx =>
        if mn > mx then
          s.raise "Range out of order in character class" none
        else
          Except.ok (true,
            s.emit (VEvent.onCharacterClassRange start s.index mn mx))
      | _, _ => s.raise "Invalid character class" none
    else do
      let s ← s.rewind current_start
      Except.ok (false, s)
  else
    Except.ok (false, s)

/-- Loop of the legacy (non-`v`) branch of `consume_class_contents`
(`src/validator.rs`, lines 1352-1382): class atoms with optional ranges. -/
def consume_class_contents_legacy_loop :
    Nat → VState → Bool → Except VErr VState
  | 0, _, _ => Except.error VErr.oof
  | fuel + 1, s, strict => do
    let range_start := s.index
    let (b, s) ← consume_class_atom s
    if !b then Except.ok s
    else do
      let min_ := s.last_int_value
      let (bh, s) ← s.eat 0x2d
      if !bh then consume_class_contents_legacy_loop fuel s strict
      else do
        let s := s.emit (VEvent.onCharacter (s.index - 1) s.index 0x2d)
        let (b2, s) ← consume_class_atom s
        if !b2 then Except.ok s
        else do
          let max_ := s.last_int_value
          match min_, max_ with
          | some mn, some mx =>
            if mn > mx then
              s.raise "Range out of order in character class" none
            else
              let s := s.emit
                (VEvent.onCharacterClassRange range_start s.index mn mx)
              consume_class_contents_legacy_loop fuel s strict
          | _, _ =>
            if strict then
              s.raise "Invalid character class" none
            else consume_class_contents_legacy_loop fuel s strict

/-- The class-set consumers of `src/validator.rs` (`consume_class_contents`
through `consume_nested_class`) are mutually recursive; to keep their
embedding efficiently computable they are packaged as one structure of
functions built by structural recursion on the fuel (`classSetFns`), with
one body definition per source function taking the package `prev` of the
recursive callees (at one less fuel) and one wrapper per source function
restoring the original name and signature. -/
structure ClassSetFns where
  contents : VState → Except VErr (UnicodeSetsConsumeResult × VState)
  set_expression : VState → Except VErr (UnicodeSetsConsumeResult × VState)
  set_expression_operators : Nat → Option Bool → VState →
    Except VErr (UnicodeSetsConsumeResult × VState)
  set_intersection_loop : Nat → Option Bool → VState →
    Except VErr (UnicodeSetsConsumeResult × VState)
  set_subtraction_loop : Nat → Option Bool → VState →
    Except VErr (UnicodeSetsConsumeResult × VState)
  union_right : VState → UnicodeSetsConsumeResult →
    Except VErr (UnicodeSetsConsumeResult × VState)
  union_right_loop : Option Bool → VState →
    Except VErr (UnicodeSetsConsumeResult × VState)
  set_operand : VState → Except VErr (Option UnicodeSetsConsumeResult × VState)
  nested_class : VState → Except VErr (Option UnicodeSetsConsumeResult × VState)

/-- Mirrors `consume_class_contents` in `src/validator.rs`. -/
def consume_class_contents_body (prev : ClassSetFns) (s : VState) :
    Except VErr (UnicodeSetsConsumeResult × VState) :=
  if s.unicode_sets_mode then
    if s.current_code_point = some 0x5d then
      Except.ok ({}, s)
    else
      prev.set_expression s
  else
    let strict := s.strict || s.unicode_mode
    do
      let s ←
        consume_class_contents_legacy_loop
          (s.reader.end_ + 1 - s.reader.i) s strict
      Except.ok ({}, s)

/-- Mirrors `consume_class_set_expression` in `src/validator.rs` (entry:
first operand and the error diagnostics of a malformed start). -/
def consume_class_set_expression_body (prev : ClassSetFns) (s : VState) :
    Except VErr (UnicodeSetsConsumeResult × VState) := do
  let start := s.index
  let (b, s) ← consume_class_set_character s
  if b then do
    let (br, s) ← consume_class_set_range_from_operator s start
    if br then do
      let (_, s) ← prev.union_right s {}
      Except.ok ({}, s)
    else
      prev.set_expression_operators start (some false) s
  else do
    let (r, s) ← prev.set_operand s
    match r with
    | some result =>
      prev.set_expression_operators start result.may_contain_strings s
    | none => do
      let cp := s.current_code_point
      if cp = some 0x5c then do
        let s ← s.advance
        s.raise "Invalid escape" none
      else if cp = s.next_code_point ∧
          is_class_set_reserved_double_punctuator_character cp then
        s.raise "Invalid set operation in character class" none
      else
        s.raise "Invalid character in character class" none

/-- The operator tail of `consume_class_set_expression`
(`src/validator.rs`, lines 1450-1486): `&&` intersections, `--`
subtractions, or a plain union continuation. -/
def consume_class_set_expression_operators_body (prev : ClassSetFns)
    (start : Nat) (may : Option Bool) (s : VState) :
    Except VErr (UnicodeSetsConsumeResult × VState) := do
  let (b, s) ← s.eat2 0x26 0x26
  if b then
    prev.set_intersection_loop start may s
  else do
    let (b, s) ← s.eat2 0x2d 0x2d
    if b then
      prev.set_subtraction_loop start may s
    else
      prev.union_right s { may_contain_strings := may }

/-- The `&&` loop of `consume_class_set_expression`. -/
def consume_class_set_intersection_loop_body (prev : ClassSetFns)
    (start : Nat) (may : Option Bool) (s : VState) :
    Except VErr (UnicodeSetsConsumeResult × VState) :=
  if s.current_code_point = some 0x26 then
    s.raise "Invalid character in character class" none
  else do
    let (r, s) ← prev.set_operand s
    match r with
    | none => s.raise "Invalid character in character class" none
    | some result => do
      let s := s.emit (VEvent.onClassIntersection start s.index)
      let may :=
        if result.may_contain_strings ≠ some true then some false else may
      let (b, s) ← s.eat2 0x26 0x26
      if b then prev.set_intersection_loop start may s
      else Except.ok ({ may_contain_strings := may }, s)

/-- The `--` loop of `consume_class_set_expression`. -/
def consume_class_set_subtraction_loop_body (prev : ClassSetFns)
    (start : Nat) (may : Option Bool) (s : VState) :
    Except VErr (UnicodeSetsConsumeResult × VState) := do
  let (r, s) ← prev.set_operand s
  match r with
  | none => s.raise "Invalid character in character class" none
  | some _ => do
    let s := s.emit (VEvent.onClassSubtraction start s.index)
    let (b, s) ← s.eat2 0x2d 0x2d
    if b then prev.set_subtraction_loop start may s
    else Except.ok ({ may_contain_strings := may }, s)

/-- Mirrors `consume_class_union_right` in `src/validator.rs`. -/
def consume_class_union_right_body (prev : ClassSetFns) (s : VState)
    (left_result : UnicodeSetsConsumeResult) :
    Except VErr (UnicodeSetsConsumeResult × VState) :=
  prev.union_right_loop left_result.may_contain_strings s

/-- The operand loop of `consume_class_union_right`. -/
def consume_class_union_right_loop_body (prev : ClassSetFns)
    (may : Option Bool) (s : VState) :
    Except VErr (UnicodeSetsConsumeResult × VState) := do
  let start := s.index
  let (b, s) ← consume_class_set_character s
  if b then do
    let (_, s) ← consume_class_set_range_from_operator s start
    prev.union_right_loop may s
  else do
    let (r, s) ← prev.set_operand s
    match r with
    | some result =>
      let may :=
        if result.may_contain_strings = some true then some true else may
      prev.union_right_loop may s
    | none => Except.ok ({ may_contain_strings := may }, s)

/-- Mirrors `consume_class_set_operand` in `src/validator.rs`. -/
def consume_class_set_operand_body (prev : ClassSetFns) (s : VState) :
    Except VErr (Option UnicodeSetsConsumeResult × VState) := do
  let (r, s) ← prev.nested_class s
  match r with
  | some r => Except.ok (some r, s)
  | none => do
    let (r, s) ← consume_class_string_disjunction s
    match r with
    | some r => Except.ok (some r, s)
    | none => do
      let (b, s) ← consume_class_set_character s
      if b then Except.ok (some {}, s) else Except.ok (none, s)

/-- Mirrors `consume_nested_class` in `src/validator.rs`, including the
negated-strings guard (`Negated character class may contain strings`). -/
def consume_nested_class_body (prev : ClassSetFns) (s : VState) :
    Except VErr (Option UnicodeSetsConsumeResult × VState) := do
  let start := s.index
  let (b, s) ← s.eat 0x5b
  if b then do
    let (negate, s) ← s.eat 0x5e
    let s := s.emit (VEvent.onCharacterClassEnter start negate true)
    let (result, s) ← prev.contents s
    let (bc, s) ← s.eat 0x5d
    if !bc then
      s.raise "Unterminated character class" none
    else if negate ∧ result.may_contain_strings = some true then
      s.raise "Negated character class may contain strings" none
    else
      Except.ok (some result,
        s.emit (VEvent.onCharacterClassLeave start s.index negate))
  else do
    let (b, s) ← s.eat 0x5c
    if b then do
      let (r, s) ← consume_character_class_escape s
      match r with
      | some r => Except.ok (some r, s)
      | none => do
        let s ← s.rewind start
        Except.ok (none, s)
    else
      Except.ok (none, s)

/-- The out-of-fuel package: every member reports `VErr.oof`. -/
def ClassSetFns.oof : ClassSetFns where
  contents _ := Except.error VErr.oof
  set_expression _ := Except.error VErr.oof
  set_expression_operators _ _ _ := Except.error VErr.oof
  set_intersection_loop _ _ _ := Except.error VErr.oof
  set_subtraction_loop _ _ _ := Except.error VErr.oof
  union_right _ _ := Except.error VErr.oof
  union_right_loop _ _ := Except.error VErr.oof
  set_operand _ := Except.error VErr.oof
  nested_class _ := Except.error VErr.oof

/-- One fuel step of the class-set consumers: ties each body to the
package of callees at one less fuel. -/
def ClassSetFns.step (prev : ClassSetFns) : ClassSetFns where
  contents := consume_class_contents_body prev
  set_expression := consume_class_set_expression_body prev
  set_expression_operators := consume_class_set_expression_operators_body prev
  set_intersection_loop := consume_class_set_intersection_loop_body prev
  set_subtraction_loop := consume_class_set_subtraction_loop_body prev
  union_right := consume_class_union_right_body prev
  union_right_loop := consume_class_union_right_loop_body prev
  set_operand := consume_class_set_operand_body prev
  nested_class := consume_nested_class_body prev

/-- The fuel-indexed package of class-set consumers. -/
def classSetFns : Nat → ClassSetFns
  | 0 => ClassSetFns.oof
  | fuel + 1 => ClassSetFns.step (classSetFns fuel)

/-- Mirrors `consume_class_contents` in `src/validator.rs`
(see `consume_class_contents_body`). -/
def consume_class_contents (fuel : Nat) (s : VState) :
    Except VErr (UnicodeSetsConsumeResult × VState) :=
  (classSetFns fuel).contents s

/-- Mirrors `consume_class_set_expression` in `src/validator.rs`
(see `consume_class_set_expression_body`). -/
def consume_class_set_expression (fuel : Nat) (s : VState) :
    Except VErr (UnicodeSetsConsumeResult × VState) :=
  (classSetFns fuel).set_expression s

/-- The operator tail of `consume_class_set_expression`
(see `consume_class_set_expression_operators_body`). -/
def consume_class_set_expression_operators (fuel : Nat) (start : Nat)
    (may : Option Bool) (s : VState) :
    Except VErr (UnicodeSetsConsumeResult × VState) :=
  (classSetFns fuel).set_expression_operators start may s

/-- The `&&` loop of `consume_class_set_expression`
(see `consume_class_set_intersection_loop_body`). -/
def consume_class_set_intersection_loop (fuel : Nat) (start : Nat)
    (may : Option Bool) (s : VState) :
    Except VErr (UnicodeSetsConsumeResult × VState) :=
  (classSetFns fuel).set_intersection_loop start may s

/-- The `--` loop of `consume_class_set_expression`
(see `consume_class_set_subtraction_loop_body`). -/
def consume_class_set_subtraction_loop (fuel : Nat) (start : Nat)
    (may : Option Bool) (s : VState) :
    Except VErr (UnicodeSetsConsumeResult × VState) :=
  (classSetFns fuel).set_subtraction_loop start may s

/-- Mirrors `consume_class_union_right` in `src/validator.rs`
(see `consume_class_union_right_body`). -/
def consume_class_union_right (fuel : Nat) (s : VState)
    (left_result : UnicodeSetsConsumeResult) :
    Except VErr (UnicodeSetsConsumeResult × VState) :=
  (classSetFns fuel).union_right s left_result

/-- The operand loop of `consume_class_union_right`
(see `consume_class_union_right_loop_body`). -/
def consume_class_union_right_loop (fuel : Nat) (may : Option Bool)
    (s : VState) : Except VErr (UnicodeSetsConsumeResult × VState) :=
  (classSetFns fuel).union_right_loop may s

/-- Mirrors `consume_class_set_operand` in `src/validator.rs`
(see `consume_class_set_operand_body`). -/
def consume_class_set_operand (fuel : Nat) (s : VState) :
    Except VErr (Option UnicodeSetsConsumeResult × VState) :=
  (classSetFns fuel).set_operand s

/-- Mirrors `consume_nested_class` in `src/validator.rs`
(see `consume_nested_class_body`). -/
def consume_nested_class (fuel : Nat) (s : VState) :
    Except VErr (Option UnicodeSetsConsumeResult × VState) :=
  (classSetFns fuel).nested_class s

/-- Mirrors `consume_character_class` in `src/validator.rs`, including the
negated-strings guard (`Negated character class may contain strings`). -/
def consume_character_class (fuel : Nat) (s : VState) :
    Except VErr (Option UnicodeSetsConsumeResult × VState) :=
  match fuel with
  | 0 => Except.error VErr.oof
  | fuel + 1 => do
    let start := s.index
    let (b, s) ← s.eat 0x5b
    if b then do
      let (negate, s) ← s.eat 0x5e
      let s := s.emit
        (VEvent.onCharacterClassEnter start negate s.unicode_sets_mode)
      let (result, s) ← consume_class_contents fuel s
      let (bc, s) ← s.eat 0x5d
      if !bc then
        if s.current_code_point.isNone then
          s.raise "Unterminated character class" none
        else
          s.raise "Invalid character in character class" none
      else if negate ∧ result.may_contain_strings = some true then
        s.raise "Negated character class may contain strings" none
      else
        Except.ok (some result,
          s.emit (VEvent.onCharacterClassLeave start s.index negate))
    else
      Except.ok (none, s)

/-- Mirrors `consume_optional_quantifier` in `src/validator.rs`. -/
def consume_optional_quantifier (s : VState) :
    Except VErr (Bool × VState) := do
  let (_, s) ← consume_quantifier s none
  Except.ok (true, s)

/-- The term-level consumers of `src/validator.rs` (`consume_disjunction`
through `consume_extended_atom`) are mutually recursive; like the
class-set consumers they are packaged as one structure of functions built
by structural recursion on the fuel (`termFns`). The step additionally
receives the fuel value itself because `consume_atom` and
`consume_extended_atom` call the standalone `consume_character_class` at
the decremented fuel. -/
structure TermFns where
  disjunction : VState → Except VErr (PUnit × VState)
  disjunction_alternatives : Nat → VState → Except VErr (PUnit × VState)
  alternative : Nat → VState → Except VErr (PUnit × VState)
  alternative_terms : VState → Except VErr (PUnit × VState)
  term : VState → Except VErr (Bool × VState)
  assertion : VState → Except VErr (Bool × VState)
  atom : VState → Except VErr (Bool × VState)
  uncapturing_group : VState → Except VErr (Bool × VState)
  capturing_group : VState → Except VErr (Bool × VState)
  extended_atom : VState → Except VErr (Bool × VState)

/-- The out-of-fuel package: every member reports `VErr.oof`. -/
def TermFns.oof : TermFns where
  disjunction _ := Except.error VErr.oof
  disjunction_alternatives _ _ := Except.error VErr.oof
  alternative _ _ := Except.error VErr.oof
  alternative_terms _ := Except.error VErr.oof
  term _ := Except.error VErr.oof
  assertion _ := Except.error VErr.oof
  atom _ := Except.error VErr.oof
  uncapturing_group _ := Except.error VErr.oof
  capturing_group _ := Except.error VErr.oof
  extended_atom _ := Except.error VErr.oof

/-- One fuel step of the term-level consumers: `fuel` is the decremented
fuel forwarded to `consume_character_class`, and `prev` the package of
callees at that fuel. -/
def TermFns.step (fuel : Nat) (prev : TermFns) : TermFns where
  disjunction s := do
    let start := s.index
    let s := s.emit (VEvent.onDisjunctionEnter start)
    let (_, s) ← prev.disjunction_alternatives 0 s
    let (b, s) ← consume_quantifier s (some true)
    if b then
      s.raise "Nothing to repeat" none
    else do
      let (b, s) ← s.eat 0x7b
      if b then
        s.raise "Lone quantifier brackets" none
      else
        Except.ok (PUnit.unit, s.emit (VEvent.onDisjunctionLeave start s.index))
  disjunction_alternatives i s := do
    let (_, s) ← prev.alternative i s
    let (b, s) ← s.eat 0x7c
    if b then prev.disjunction_alternatives (i + 1) s
    else Except.ok (PUnit.unit, s)
  alternative i s := do
    let start := s.index
    let s := s.emit (VEvent.onAlternativeEnter start i)
    let (_, s) ← prev.alternative_terms s
    Except.ok (PUnit.unit, s.emit (VEvent.onAlternativeLeave start s.index i))
  alternative_terms s :=
    if s.current_code_point.isSome then do
      let (b, s) ← prev.term s
      if b then prev.alternative_terms s
      else Except.ok (PUnit.unit, s)
    else Except.ok (PUnit.unit, s)
  term s :=
    if s.unicode_mode || s.strict then do
      let (b, s) ← prev.assertion s
      if b then Except.ok (true, s)
      else do
        let (b, s) ← prev.atom s
        if b then consume_optional_quantifier s
        else Except.ok (false, s)
    else do
      let (b, s) ← prev.assertion s
      if b then
        if !s.last_assertion_is_quantifiable then Except.ok (true, s)
        else consume_optional_quantifier s
      else do
        let (b, s) ← prev.extended_atom s
        if b then consume_optional_quantifier s
        else Except.ok (false, s)
  assertion s := do
    let start := s.index
    let s := { s with last_assertion_is_quantifiable := false }
    let (b, s) ← s.eat 0x5e
    if b then
      Except.ok (true,
        s.emit (VEvent.onEdgeAssertion start s.index AssertionKind.start))
    else do
      let (b, s) ← s.eat 0x24
      if b then
        Except.ok (true,
          s.emit (VEvent.onEdgeAssertion start s.index AssertionKind.end_))
      else do
        let (b, s) ← s.eat2 0x5c 0x42
        if b then
          Except.ok (true,
            s.emit (VEvent.onWordBoundaryAssertion start s.index
              AssertionKind.word true))
        else do
          let (b, s) ← s.eat2 0x5c 0x62
          if b then
            Except.ok (true,
              s.emit (VEvent.onWordBoundaryAssertion start s.index
                AssertionKind.word false))
          else do
            let (b, s) ← s.eat2 0x28 0x3f
            if b then do
              let (lookbehind, s) ←
                if s.ecma_version ≥ 2018 then s.eat 0x3c
                else pure (false, s)
              let (beq, s) ← s.eat 0x3d
              let (negate, proceed, s) ←
                if beq then pure (false, true, s)
                else do
                  let (bex, s) ← s.eat 0x21
                  pure (bex, bex, s)
              if proceed then do
                let kind :=
                  if lookbehind then AssertionKind.lookbehind
                  else AssertionKind.lookahead
                let s := s.emit
                  (VEvent.onLookaroundAssertionEnter start kind negate)
                let (_, s) ← prev.disjunction s
                let (bp, s) ← s.eat 0x29
                if !bp then
                  s.raise "Unterminated group" none
                else
                  let s := { s with
                    last_assertion_is_quantifiable :=
                      !lookbehind && !s.strict }
                  Except.ok (true,
                    s.emit (VEvent.onLookaroundAssertionLeave start s.index
                      kind negate))
              else do
                let s ← s.rewind start
                Except.ok (false, s)
            else
              Except.ok (false, s)
  atom s := do
    let (b, s) ← consume_pattern_character s
    if b then Except.ok (true, s)
    else do
      let (b, s) ← consume_dot s
      if b then Except.ok (true, s)
      else do
        let (b, s) ← consume_reverse_solidus_atom_escape s
        if b then Except.ok (true, s)
        else do
          let (r, s) ← consume_character_class fuel s
          if r.isSome then Except.ok (true, s)
          else do
            let (b, s) ← prev.uncapturing_group s
            if b then Except.ok (true, s)
            else prev.capturing_group s
  uncapturing_group s := do
    let start := s.index
    let (b, s) ← s.eat3 0x28 0x3f 0x3a
    if b then do
      let s := s.emit (VEvent.onGroupEnter start)
      let (_, s) ← prev.disjunction s
      let (b, s) ← s.eat 0x29
      if !b then
        s.raise "Unterminated group" none
      else
        Except.ok (true, s.emit (VEvent.onGroupLeave start s.index))
    else
      Except.ok (false, s)
  capturing_group s := do
    let start := s.index
    let (b, s) ← s.eat 0x28
    if b then do
      let (name, s) ←
        if s.ecma_version ≥ 2018 then do
          let (bg, s) ← consume_group_specifier s
          if bg then pure (some s.last_str_value, s)
          else pure ((none : Option (List Nat)), s)
        else
          if s.current_code_point = some 0x3f then
            s.raise "Invalid group" none
          else
            pure ((none : Option (List Nat)), s)
      let s := s.emit (VEvent.onCapturingGroupEnter start name)
      let (_, s) ← prev.disjunction s
      let (b, s) ← s.eat 0x29
      if !b then
        s.raise "Unterminated group" none
      else
        Except.ok (true,
          s.emit (VEvent.onCapturingGroupLeave start s.index name))
    else
      Except.ok (false, s)
  extended_atom s := do
    let (b, s) ← consume_dot s
    if b then Except.ok (true, s)
    else do
      let (b, s) ← consume_reverse_solidus_atom_escape s
      if b then Except.ok (true, s)
      else do
        let (b, s) ← consume_reverse_solidus_followed_by_c s
        if b then Except.ok (true, s)
        else do
          let (r, s) ← consume_character_class fuel s
          if r.isSome then Except.ok (true, s)
          else do
            let (b, s) ← prev.uncapturing_group s
            if b then Except.ok (true, s)
            else do
              let (b, s) ← prev.capturing_group s
              if b then Except.ok (true, s)
              else do
                let (b, s) ← consume_invalid_braced_quantifier s
                if b then Except.ok (true, s)
                else consume_extended_pattern_character s

/-- The fuel-indexed package of term-level consumers. -/
def termFns : Nat → TermFns
  | 0 => TermFns.oof
  | fuel + 1 => TermFns.step fuel (termFns fuel)

/-- Mirrors `consume_disjunction` in `src/validator.rs`. -/
def consume_disjunction (fuel : Nat) (s : VState) :
    Except VErr (PUnit × VState) :=
  (termFns fuel).disjunction s

/-- The do-while loop over `|`-separated alternatives in
`consume_disjunction`. -/
def consume_disjunction_alternatives (fuel : Nat) (i : Nat) (s : VState) :
    Except VErr (PUnit × VState) :=
  (termFns fuel).disjunction_alternatives i s

/-- Mirrors `consume_alternative` in `src/validator.rs`. -/
def consume_alternative (fuel : Nat) (i : Nat) (s : VState) :
    Except VErr (PUnit × VState) :=
  (termFns fuel).alternative i s

/-- The term loop of `consume_alternative`
(`while current_code_point.is_some() && consume_term()? {}`). -/
def consume_alternative_terms (fuel : Nat) (s : VState) :
    Except VErr (PUnit × VState) :=
  (termFns fuel).alternative_terms s

/-- Mirrors `consume_term` in `src/validator.rs`. -/
def consume_term (fuel : Nat) (s : VState) : Except VErr (Bool × VState) :=
  (termFns fuel).term s

/-- Mirrors `consume_assertion` in `src/validator.rs`. -/
def consume_assertion (fuel : Nat) (s : VState) :
    Except VErr (Bool × VState) :=
  (termFns fuel).assertion s

/-- Mirrors `consume_atom` in `src/validator.rs`. -/
def consume_atom (fuel : Nat) (s : VState) : Except VErr (Bool × VState) :=
  (termFns fuel).atom s

/-- Mirrors `consume_uncapturing_group` in `src/validator.rs`. -/
def consume_uncapturing_group (fuel : Nat) (s : VState) :
    Except VErr (Bool × VState) :=
  (termFns fuel).uncapturing_group s

/-- Mirrors `consume_capturing_group` in `src/validator.rs`. -/
def consume_capturing_group (fuel : Nat) (s : VState) :
    Except VErr (Bool × VState) :=
  (termFns fuel).capturing_group s

/-- Mirrors `consume_extended_atom` in `src/validator.rs`. -/
def consume_extended_atom (fuel : Nat) (s : VState) :
    Except VErr (Bool × VState) :=
  (termFns fuel).extended_atom s

/-- Loop of `count_capturing_parens` (`src/validator.rs`): scan to the end
bound, tracking `in_class`/`escaped`, counting capturing `(`s. -/
def count_capturing_parens_loop :
    Nat → VState → Bool → Bool → Nat → Except VErr (Nat × VState)
  | 0, _, _, _, _ => Except.error VErr.oof
  | fuel + 1, s, in_class, escaped, count =>
    match s.current_code_point with
    | none => Except.ok (count, s)
    | some cp =>
      let next :=
        if escaped then (in_class, false, count)
        else if cp = 0x5c then (in_class, true, count)
        else if cp = 0x5b then (true, escaped, count)
        else if cp = 0x5d then (false, escaped, count)
        else if cp = 0x28 ∧ ¬ in_class ∧
            (s.next_code_point ≠ some 0x3f ∨
              (s.next_code_point2 = some 0x3c ∧
                s.next_code_point3 ≠ some 0x3d ∧
                s.next_code_point3 ≠ some 0x21)) then
          (in_class, escaped, count + 1)
        else (in_class, escaped, count)
      do
        let s ← s.advance
        count_capturing_parens_loop fuel s next.1 next.2.1 next.2.2

/-- Mirrors `count_capturing_parens` in `src/validator.rs`: count capturing
`(`s from the current position to the end bound, then rewind back. -/
def count_capturing_parens (s : VState) : Except VErr (Nat × VState) := do
  let start := s.index
  let (count, s) ←
    count_capturing_parens_loop (s.reader.end_ + 1 - s.reader.i) s
      false false 0
  let s ← s.rewind start
  Except.ok (count, s)

/-- Mirrors `consume_pattern` in `src/validator.rs`. -/
def consume_pattern (fuel : Nat) (s : VState) : Except VErr VState :=
  match fuel with
  | 0 => Except.error VErr.oof
  | fuel + 1 => do
    let start := s.index
    let (cnt, s) ← count_capturing_parens s
    let s := { s with
      num_capturing_parens := cnt
      group_names := []
      backreference_names := [] }
    let s := s.emit (VEvent.onPatternEnter start)
    let (_, s) ← consume_disjunction fuel s
    match s.current_code_point with
    | some cp =>
      if cp = 0x29 then
        s.raise "Unmatched \x27)\x27" none
      else if cp = 0x5c then
        s.raise "\\ at end of pattern" none
      else if cp = 0x5d ∨ cp = 0x7d then
        s.raise "Lone quantifier brackets" none
      else
        match charOfCp cp with
        | none => Except.error VErr.panic
        | some c =>
          s.raise ("Unexpected character \x27" ++ c.toString ++ "\x27") none
    | none =>
      if s.backreference_names.any
          (fun name => ¬ s.group_names.contains name) then
        s.raise "Invalid named capture referenced" none
      else
        Except.ok (s.emit (VEvent.onPatternLeave start s.index))

/-- Mirrors `_parse_flags_option_to_mode` in `src/validator.rs`. -/
def parse_flags_option_to_mode (s : VState)
    (flags : Option ValidatePatternFlags) (source_end : Nat) :
    Except VErr Mode :=
  let uv : Bool × Bool :=
    match flags with
    | some flags =>
      if s.ecma_version ≥ 2015 then
        (flags.unicode = some true,
         decide (s.ecma_version ≥ 2024) && flags.unicode_sets = some true)
      else (false, false)
    | none => (false, false)
  let unicode := uv.1
  let unicode_sets := uv.2
  if unicode && unicode_sets then
    s.raise "Invalid regular expression flags"
      (some { index := some (source_end + 1)
              unicode := some unicode
              unicode_sets := some unicode_sets })
  else
    Except.ok
      { unicode_mode := unicode || unicode_sets
        n_flag := unicode && decide (s.ecma_version ≥ 2018) ||
          unicode_sets ||
          decide (s.strict_opt = some true) &&
            decide (s.ecma_version ≥ 2023)
        unicode_sets_mode := unicode_sets }

/-- Mirrors `validate_pattern_internal` in `src/validator.rs`: derive the
modes, reset, run one full descent, and on discovering named groups with
`n_flag` off only set `n_flag` and rewind (no further code follows). -/
def validate_pattern_internal (fuel : Nat) (s : VState) (source : List Nat)
    (start end_ : Nat) (flags : Option ValidatePatternFlags) :
    Except VErr VState := do
  let mode ← parse_flags_option_to_mode s flags end_
  let s := { s with
    unicode_mode := mode.unicode_mode
    n_flag := mode.n_flag
    unicode_sets_mode := mode.unicode_sets_mode }
  let s ← s.reset source start end_
  let s ← consume_pattern fuel s
  if !s.n_flag ∧ s.ecma_version ≥ 2018 ∧ s.group_names ≠ [] then do
    let s := { s with n_flag := true }
    s.rewind start
  else
    Except.ok s

/-- Mirrors `validate_pattern` in `src/validator.rs`. -/
def validate_pattern (fuel : Nat) (s : VState) (source : List Nat)
    (start? end? : Option Nat) (flags : Option ValidatePatternFlags) :
    Except VErr VState :=
  let start := start?.getD 0
  let end_ := end?.getD source.length
  let s := { s with
    src_ctx := some { source := source
                      start := start
                      end_ := end_
                      kind := SourceContextKind.pattern } }
  validate_pattern_internal fuel s source start end_ flags

/-- The flag-matching loop of `validate_flags_internal`
(`src/validator.rs`, lines 456-492). -/
def validate_flags_internal_loop (s : VState) (start : Nat) :
    List Nat → List Nat → RegExpFlags → Except VErr RegExpFlags
  | [], _, acc => Except.ok acc
  | flag :: rest, existing, acc =>
    if existing.contains flag then
      match charOfCp flag with
      | none => Except.error VErr.panic
      | some c =>
        s.raise ("Duplicated flag \x27" ++ c.toString ++ "\x27")
          (some { index := some start })
    else
      let existing := existing ++ [flag]
      if flag = 0x67 then
        validate_flags_internal_loop s start rest existing
          { acc with global := true }
      else if flag = 0x69 then
        validate_flags_internal_loop s start rest existing
          { acc with ignore_case := true }
      else if flag = 0x6d then
        validate_flags_internal_loop s start rest existing
          { acc with multiline := true }
      else if flag = 0x75 ∧ s.ecma_version ≥ 2015 then
        validate_flags_internal_loop s start rest existing
          { acc with unicode := true }
      else if flag = 0x79 ∧ s.ecma_version ≥ 2015 then
        validate_flags_internal_loop s start rest existing
          { acc with sticky := true }
      else if flag = 0x73 ∧ s.ecma_version ≥ 2018 then
        validate_flags_internal_loop s start rest existing
          { acc with dot_all := true }
      else if flag = 0x64 ∧ s.ecma_version ≥ 2022 then
        validate_flags_internal_loop s start rest existing
          { acc with has_indices := true }
      else if flag = 0x76 ∧ s.ecma_version ≥ 2024 then
        validate_flags_internal_loop s start rest existing
          { acc with unicode_sets := true }
      else
        match charOfCp flag with
        | none => Except.error VErr.panic
        | some c =>
          s.raise ("Invalid flag \x27" ++ c.toString ++ "\x27")
            (some { index := some start })

/-- The all-false flag record the eight `let mut … = false` locals of
`validate_flags_internal` start from. -/
def RegExpFlags.allFalse : RegExpFlags :=
  { global := false
    ignore_case := false
    multiline := false
    unicode := false
    sticky := false
    dot_all := false
    has_indices := false
    unicode_sets := false }

/-- Mirrors `validate_flags_internal` in `src/validator.rs`: scan the flag
slice (the Rust slicing `&source[start..end]` panics on ill-formed
bounds), then emit `on_reg_exp_flags`. -/
def validate_flags_internal (s : VState) (source : List Nat)
    (start end_ : Nat) : Except VErr VState := do
  let sl ←
    match sliceUnits source start end_ with
    | Except.ok l => pure l
    | Except.error _ => Except.error VErr.panic
  let flags ← validate_flags_internal_loop s start sl [] RegExpFlags.allFalse
  Except.ok (s.emit (VEvent.onRegExpFlags start end_ flags))

/-- Mirrors `validate_flags` in `src/validator.rs`. -/
def validate_flags (s : VState) (source : List Nat)
    (start? end? : Option Nat) : Except VErr VState :=
  let start := start?.getD 0
  let end_ := end?.getD source.length
  let s := { s with
    src_ctx := some { source := source
                      start := start
                      end_ := end_
                      kind := SourceContextKind.flags } }
  validate_flags_internal s source start end_

/-- Parser AST node kinds (`src/ast.rs` `Node` variants reachable through
the handlers embedded here). -/
inductive PNodeKind
  | pattern
  | alternative
  | group
  | capturingGroup
  | assertion
  | characterClass
  | stringAlternative
  | character
  | backreference
deriving Repr, DecidableEq

/-- One arena node of the parser AST: the Rust `Node` enum of `src/ast.rs`
is flattened into a single record (each kind reads the fields meaningful
to it, the rest keep their defaults), which keeps the arena a plain list
indexed by the `Id<Node>` numbers. -/
structure PNode where
  kind : PNodeKind
  parent : Option Nat := none
  start : Nat := 0
  end_ : Nat := 0
  raw : List Nat := []
  alternatives : List Nat := []
  elements : List Nat := []
  name : Option (List Nat) := none
  references : List Nat := []
  ref_ : Option CapturingGroupKey := none
  resolved : Option Nat := none
  value : Option Nat := none
deriving Repr, DecidableEq

/-- Failures of the embedded parser handlers: `panic` is a Rust panic
(an `unwrap`, a failed `assert!`, or an out-of-bounds index or slice);
`unmodelled` marks the handlers not embedded here (they never occur in
the event traces these theorems replay). -/
inductive PErr
  | panic
  | unmodelled
deriving Repr, DecidableEq

/-- Mirrors `RegExpParserState` in `src/parser.rs`: the arena, the
`_node` focus, `_backreferences`, `_capturing_groups` and the source
units. -/
structure ParserState where
  arena : List PNode
  node : Option Nat
  backreferences : List Nat
  capturing_groups : List Nat
  source : List Nat
deriving Repr, DecidableEq

/-- Modelled from the spec: the parser front end (`parse_literal` in
`src/parser.rs` is an `unimplemented!()` stub, so no code fills
`source`) hands the validator the pattern units and replays its
callbacks on a fresh state whose `source` holds those units. -/
def ParserState.new (source : List Nat) : ParserState :=
  { arena := []
    node := none
    backreferences := []
    capturing_groups := []
    source := source }

/-- `self._arena.alloc_node(..)`: appends and returns the fresh id. -/
def ParserState.allocNode (st : ParserState) (n : PNode) :
    Nat × ParserState :=
  (st.arena.length, { st with arena := st.arena ++ [n] })

/-- `self._arena.node(id)` (an invalid id is a panic). -/
def ParserState.getNode (st : ParserState) (id : Nat) :
    Except PErr PNode :=
  match st.arena.get? id with
  | some n => Except.ok n
  | none => Except.error PErr.panic

/-- `self._arena.node_mut(id)` followed by a field update. -/
def ParserState.setNode (st : ParserState) (id : Nat) (n : PNode) :
    ParserState :=
  { st with arena := st.arena.set id n }

/-- `self._node.borrow().unwrap()`. -/
def ParserState.focus (st : ParserState) : Except PErr Nat :=
  match st.node with
  | some id => Except.ok id
  | none => Except.error PErr.panic

/-- `self.source[start..end].to_owned()` (ill-formed bounds panic). -/
def ParserState.sliceSource (st : ParserState) (start end_ : Nat) :
    Except PErr (List Nat) :=
  match sliceUnits st.source start end_ with
  | Except.ok l => Except.ok l
  | Except.error _ => Except.error PErr.panic

/-- Mirrors `on_pattern_enter` in `src/parser.rs`: allocate the pattern
node, focus it, and clear `_backreferences` and `_capturing_groups`. -/
def ParserState.on_pattern_enter (st : ParserState) (start : Nat) :
    Except PErr ParserState :=
  let (id, st) := st.allocNode
    { kind := PNodeKind.pattern
      parent := none
      start := start
      end_ := start }
  Except.ok { st with
    node := some id
    backreferences := []
    capturing_groups := [] }

/-- The body of the `for &reference in &*self._backreferences.borrow()`
loop of `on_pattern_leave` (`src/parser.rs`, lines 120-142): look the
referenced group up — `self._capturing_groups.borrow()[ref_ - 1]` for an
index reference (an out-of-bounds index is a panic) and
`.find(..).unwrap()` for a name reference (`None` is a panic) — then set
`resolved` on the backreference and push it onto the group's
`references`. -/
def ParserState.resolveBackreference (st : ParserState)
    (reference : Nat) : Except PErr ParserState := do
  let bnode ← st.getNode reference
  if bnode.kind ≠ PNodeKind.backreference then
    Except.error PErr.panic
  else do
    let ref_ ←
      match bnode.ref_ with
      | some r => Except.ok r
      | none => Except.error PErr.panic
    let group ←
      match ref_ with
      | CapturingGroupKey.index n =>
        match st.capturing_groups.get? (n - 1) with
        | some g => Except.ok g
        | none => Except.error PErr.panic
      | CapturingGroupKey.name s =>
        match st.capturing_groups.find? (fun g =>
            match st.arena.get? g with
            | some gn => gn.name = some s
            | none => false) with
        | some g => Except.ok g
        | none => Except.error PErr.panic
    let st := st.setNode reference { bnode with resolved := some group }
    let gnode ← st.getNode group
    if gnode.kind ≠ PNodeKind.capturingGroup then
      Except.error PErr.panic
    else
      Except.ok (st.setNode group
        { gnode with references := gnode.references ++ [reference] })

/-- The fold of `resolveBackreference` over `_backreferences`. -/
def ParserState.resolveAllBackreferences :
    ParserState → List Nat → Except PErr ParserState
  | st, [] => Except.ok st
  | st, reference :: rest => do
    let st ← st.resolveBackreference reference
    ParserState.resolveAllBackreferences st rest

/-- Mirrors `on_pattern_leave` in `src/parser.rs`: close the pattern
node, then resolve every collected backreference. -/
def ParserState.on_pattern_leave (st : ParserState) (start end_ : Nat) :
    Except PErr ParserState := do
  let id ← st.focus
  let pnode ← st.getNode id
  let raw ← st.sliceSource start end_
  let st := st.setNode id { pnode with end_ := end_, raw := raw }
  st.resolveAllBackreferences st.backreferences

/-- Mirrors `on_alternative_enter` in `src/parser.rs`: the focus must be
an assertion, capturing group, group or pattern (`assert!`); allocate the
alternative, focus it and push it onto the parent's `alternatives`. -/
def ParserState.on_alternative_enter (st : ParserState)
    (start _index : Nat) : Except PErr ParserState := do
  let parent ← st.focus
  let pnode ← st.getNode parent
  if pnode.kind = PNodeKind.assertion ∨
      pnode.kind = PNodeKind.capturingGroup ∨
      pnode.kind = PNodeKind.group ∨ pnode.kind = PNodeKind.pattern then
    let (id, st) := st.allocNode
      { kind := PNodeKind.alternative
        parent := some parent
        start := start
        end_ := start }
    let st := { st with node := some id }
    let pnode ← st.getNode parent
    Except.ok (st.setNode parent
      { pnode with alternatives := pnode.alternatives ++ [id] })
  else
    Except.error PErr.panic

/-- Mirrors `on_alternative_leave` in `src/parser.rs`: close the
alternative and move the focus to its parent. -/
def ParserState.on_alternative_leave (st : ParserState)
    (start end_ _index : Nat) : Except PErr ParserState := do
  let id ← st.focus
  let n ← st.getNode id
  if n.kind ≠ PNodeKind.alternative then
    Except.error PErr.panic
  else do
    let raw ← st.sliceSource start end_
    let st := st.setNode id { n with end_ := end_, raw := raw }
    Except.ok { st with node := n.parent }

/-- Mirrors `on_group_enter` in `src/parser.rs`: allocate the
non-capturing group under the focused alternative, focus it and push it
onto the alternative's `elements`. -/
def ParserState.on_group_enter (st : ParserState) (start : Nat) :
    Except PErr ParserState := do
  let parent ← st.focus
  let pnode ← st.getNode parent
  if pnode.kind ≠ PNodeKind.alternative then
    Except.error PErr.panic
  else
    let (id, st) := st.allocNode
      { kind := PNodeKind.group
        parent := some parent
        start := start
        end_ := start }
    let st := { st with node := some id }
    let pnode ← st.getNode parent
    Except.ok (st.setNode parent
      { pnode with elements := pnode.elements ++ [id] })

/-- Mirrors `on_group_leave` in `src/parser.rs`. -/
def ParserState.on_group_leave (st : ParserState) (start end_ : Nat) :
    Except PErr ParserState := do
  let id ← st.focus
  let n ← st.getNode id
  if n.kind = PNodeKind.group ∨ n.kind = PNodeKind.alternative then do
    let raw ← st.sliceSource start end_
    let st := st.setNode id { n with end_ := end_, raw := raw }
    Except.ok { st with node := n.parent }
  else
    Except.error PErr.panic

/-- Mirrors `on_capturing_group_enter` in `src/parser.rs`: the focus must
be an alternative; allocate the capturing-group node and focus it. Note
what the handler does NOT do (unlike `on_group_enter`, and unlike the
original regexpp): the new node is neither pushed onto the parent
alternative's `elements` nor recorded in `_capturing_groups`. -/
def ParserState.on_capturing_group_enter (st : ParserState) (start : Nat)
    (name : Option (List Nat)) : Except PErr ParserState := do
  let parent ← st.focus
  let pnode ← st.getNode parent
  if pnode.kind ≠ PNodeKind.alternative then
    Except.error PErr.panic
  else
    let (id, st) := st.allocNode
      { kind := PNodeKind.capturingGroup
        parent := some parent
        start := start
        end_ := start
        name := name
        references := [] }
    Except.ok { st with node := some id }

/-- Mirrors `on_capturing_group_leave` in `src/parser.rs`. -/
def ParserState.on_capturing_group_leave (st : ParserState)
    (start end_ : Nat) (_name : Option (List Nat)) :
    Except PErr ParserState := do
  let id ← st.focus
  let n ← st.getNode id
  if n.kind = PNodeKind.capturingGroup ∨
      n.kind = PNodeKind.alternative then do
    let raw ← st.sliceSource start end_
    let st := st.setNode id { n with end_ := end_, raw := raw }
    Except.ok { st with node := n.parent }
  else
    Except.error PErr.panic

/-- Mirrors `on_character` in `src/parser.rs`: allocate the character
node under the focused alternative, character class or string
alternative and push it onto the parent's `elements`. -/
def ParserState.on_character (st : ParserState) (start end_ value : Nat) :
    Except PErr ParserState := do
  let parent ← st.focus
  let pnode ← st.getNode parent
  if pnode.kind = PNodeKind.alternative ∨
      pnode.kind = PNodeKind.characterClass ∨
      pnode.kind = PNodeKind.stringAlternative then do
    let raw ← st.sliceSource start end_
    let (id, st) := st.allocNode
      { kind := PNodeKind.character
        parent := some parent
        start := start
        end_ := end_
        raw := raw
        value := some value }
    let pnode ← st.getNode parent
    Except.ok (st.setNode parent
      { pnode with elements := pnode.elements ++ [id] })
  else
    Except.error PErr.panic

/-- Mirrors `on_backreference` in `src/parser.rs`: allocate the
backreference (with `resolved = None`) under the focused alternative,
push it onto the alternative's `elements` and record it in
`_backreferences`. -/
def ParserState.on_backreference (st : ParserState) (start end_ : Nat)
    (ref_ : CapturingGroupKey) : Except PErr ParserState := do
  let parent ← st.focus
  let pnode ← st.getNode parent
  if pnode.kind ≠ PNodeKind.alternative then
    Except.error PErr.panic
  else do
    let raw ← st.sliceSource start end_
    let (id, st) := st.allocNode
      { kind := PNodeKind.backreference
        parent := some parent
        start := start
        end_ := end_
        raw := raw
        ref_ := some ref_
        resolved := none }
    let pnode ← st.getNode parent
    let st := st.setNode parent
      { pnode with elements := pnode.elements ++ [id] }
    Except.ok { st with backreferences := st.backreferences ++ [id] }

/-- Dispatches one validator callback to the matching handler of
`RegExpParserState` (`src/parser.rs`). `on_disjunction_enter` and
`on_disjunction_leave` are not overridden by the parser, so they keep the
no-op default of the `Options` trait (`src/validator.rs`, lines
208-209). The handlers outside the traces replayed here (flags,
quantifiers, assertions, character sets, character classes, class string
disjunctions) are left unembedded and map to `PErr.unmodelled`. -/
def applyEvent (st : ParserState) : VEvent → Except PErr ParserState
  | VEvent.onPatternEnter start => st.on_pattern_enter start
  | VEvent.onPatternLeave start end_ => st.on_pattern_leave start end_
  | VEvent.onDisjunctionEnter _ => Except.ok st
  | VEvent.onDisjunctionLeave _ _ => Except.ok st
  | VEvent.onAlternativeEnter start index =>
    st.on_alternative_enter start index
  | VEvent.onAlternativeLeave start end_ index =>
    st.on_alternative_leave start end_ index
  | VEvent.onGroupEnter start => st.on_group_enter start
  | VEvent.onGroupLeave start end_ => st.on_group_leave start end_
  | VEvent.onCapturingGroupEnter start name =>
    st.on_capturing_group_enter start name
  | VEvent.onCapturingGroupLeave start end_ name =>
    st.on_capturing_group_leave start end_ name
  | VEvent.onCharacter start end_ value =>
    st.on_character start end_ value
  | VEvent.onBackreference start end_ ref_ =>
    st.on_backreference start end_ ref_
  | _ => Except.error PErr.unmodelled

/-- Replays a validator callback trace through the parser handlers. -/
def applyEvents : ParserState → List VEvent → Except PErr ParserState
  | st, [] => Except.ok st
  | st, e :: rest => do
    let st ← applyEvent st e
    applyEvents st rest

/-- Is the replay still alive? -/
def parseOk (x : Except PErr ParserState) : Bool :=
  match x with
  | Except.ok _ => true
  | Except.error _ => false

/-- The WTF-16 units of the pattern `(a)\1`. -/
def c1Units : List Nat := [40, 97, 41, 92, 49]

/-- The callback trace the validator emits for `(a)\1` with the `u`
flag. -/
def c1Trace : List VEvent :=
  [VEvent.onPatternEnter 0,
   VEvent.onDisjunctionEnter 0,
   VEvent.onAlternativeEnter 0 0,
   VEvent.onCapturingGroupEnter 0 none,
   VEvent.onDisjunctionEnter 1,
   VEvent.onAlternativeEnter 1 0,
   VEvent.onCharacter 1 2 97,
   VEvent.onAlternativeLeave 1 2 0,
   VEvent.onDisjunctionLeave 1 2,
   VEvent.onCapturingGroupLeave 0 3 none,
   VEvent.onBackreference 3 5 (CapturingGroupKey.index 1),
   VEvent.onAlternativeLeave 0 5 0,
   VEvent.onDisjunctionLeave 0 5,
   VEvent.onPatternLeave 0 5]

/-- A default validator state (used by the total extraction helpers below,
which stand in for Rust pattern matches in closed witness statements). -/
def vstateD : VState := VState.new none none

/-- Extracts the payload of a successful `Bool × VState` computation. -/
def okBS (x : Except VErr (Bool × VState)) : Bool × VState :=
  match x with
  | Except.ok p => p
  | Except.error _ => (false, vstateD)

/-- Extracts the final state of a successful `Nat × VState` computation. -/
def okNS (x : Except VErr (Nat × VState)) : VState :=
  match x with
  | Except.ok p => p.2
  | Except.error _ => vstateD

/-- Counts `on_pattern_enter` callbacks in an event log: one per run of the
recursive descent over the pattern. -/
def countPatternEnters (events : List VEvent) : Nat :=
  events.countP (fun e =>
    match e with
    | VEvent.onPatternEnter _ => true
    | _ => false)

/-- The WTF-16 units of the pattern `(?<a>x)`. -/
def c4Units : List Nat := [40, 63, 60, 97, 62, 120, 41]

set_option maxHeartbeats 2000000 in
/-- Claim C4: validating `(?<a>x)` (named group, no `u` flag, default
ECMAScript version 2024) succeeds, and afterwards `n_flag` is true and the
reader was rewound to the pattern start — but the recursive descent ran
only once (`on_pattern_enter` was emitted exactly once): the code sets
`n_flag` and rewinds without ever calling `consume_pattern` again, so no
re-parse with `n_flag` on happens, contradicting the claim. -/
theorem c4_nflag_rewind_without_reparse :
    (validate_pattern 200 (VState.new none none) c4Units none none
        none).map
      (fun s => (s.reader.i, s.n_flag, countPatternEnters s.events)) =
    Except.ok (0, true, 1) := rfl

/-- Unfolds `sliceUnits` on in-range bounds. -/
theorem sliceUnits_ok {s : List Nat} {a b : Nat} (hab : a ≤ b)
    (hb : b ≤ s.length) :
    sliceUnits s a b = Except.ok ((s.drop a).take (b - a)) := by
  simp [sliceUnits, hab, hb]

/-- Claim C5 counterexample: with out-of-range bounds (`end = 5` on the
empty source) the `u`+`v` call panics while slicing the source into the
error message, instead of failing with a `RegExpSyntaxError` at
`end + 1`. -/
theorem c5_uv_out_of_bounds_panics :
    validate_pattern 10 (VState.new none none) [] (some 0) (some 5)
      (some { unicode := some true, unicode_sets := some true }) =
    Except.error VErr.panic := rfl

/-- The error value of `_parse_flags_option_to_mode` when both `unicode`
and `unicodeSets` are requested at ECMAScript at least 2024. -/
theorem parse_flags_uv (s : VState) (source_end : Nat)
    (h : 2024 <= s.ecma_version) :
    parse_flags_option_to_mode s
      (some { unicode := some true, unicode_sets := some true })
      source_end =
    Except.error (s.raiseErr "Invalid regular expression flags"
      (some { index := some (source_end + 1)
              unicode := some true
              unicode_sets := some true })) := by
  unfold parse_flags_option_to_mode
  have h15 : (2015 : Nat) <= s.ecma_version := le_trans (by norm_num) h
  have hd : decide (s.ecma_version >= 2024) = true := decide_eq_true h
  simp [h15, hd, VState.raise]

/-- The syntax error built by `raise` under a pattern source context with
in-range bounds and explicit `unicode`/`unicodeSets` context flags. -/
theorem raiseErr_pattern_uv (s : VState) (source : List Nat)
    (start end_ : Nat) (hab : start <= end_) (hb : end_ <= source.length)
    (hctx : s.src_ctx = some { source := source
                               start := start
                               end_ := end_
                               kind := SourceContextKind.pattern })
    (msg : String) (idx : Nat) :
    s.raiseErr msg (some { index := some idx
                           unicode := some true
                           unicode_sets := some true }) =
    VErr.err
      { message := "Invalid regular expression: /" ++
          wtf16Display ((source.drop start).take (end_ - start)) ++ "/" ++
          "uv" ++ ": " ++ msg
        index := idx } := by
  unfold VState.raiseErr
  rw [hctx]
  simp [new_reg_exp_syntax_error, sliceUnits_ok hab hb, bind, Except.bind]

/-- Claim C5 (amended with `start <= end <= source.len()`, which the Rust
slicing of the error frame needs): a `validate_pattern` call with both
`unicode` and `unicodeSets` at ECMAScript at least 2024 fails with
`Invalid regular expression flags`, message frame `/<slice>/uv`, at index
`end + 1`. -/
theorem c5_uv_flags_rejected (fuel : Nat) (s : VState) (source : List Nat)
    (start end_ : Nat) (hecma : 2024 <= s.ecma_version)
    (hab : start <= end_) (hb : end_ <= source.length) :
    validate_pattern fuel s source (some start) (some end_)
      (some { unicode := some true, unicode_sets := some true }) =
    Except.error (VErr.err
      { message := "Invalid regular expression: /" ++
          wtf16Display ((source.drop start).take (end_ - start)) ++ "/" ++
          "uv" ++ ": " ++ "Invalid regular expression flags"
        index := end_ + 1 }) := by
  have hv : validate_pattern fuel s source (some start) (some end_)
        (some { unicode := some true, unicode_sets := some true }) =
      validate_pattern_internal fuel
        { s with src_ctx := some { source := source
                                   start := start
                                   end_ := end_
                                   kind := SourceContextKind.pattern } }
        source start end_
        (some { unicode := some true, unicode_sets := some true }) := rfl
  rw [hv]
  unfold validate_pattern_internal
  rw [parse_flags_uv
    { s with src_ctx := some { source := source
                               start := start
                               end_ := end_
                               kind := SourceContextKind.pattern } }
    end_ hecma]
  simp only [bind, Except.bind]
  rw [raiseErr_pattern_uv _ source start end_ hab hb rfl]

/-- Witness for claim C5: the amended theorem applied to `abcd` with
`start = 0`, `end = 2`, yielding the exact message and index of the
claim's example. -/
theorem c5_uv_flags_rejected_witness :
    validate_pattern 10 (VState.new none none) [97, 98, 99, 100] (some 0)
      (some 2) (some { unicode := some true, unicode_sets := some true }) =
    Except.error (VErr.err
      { message :=
          "Invalid regular expression: /ab/uv: Invalid regular expression flags"
        index := 3 }) := by
  rw [c5_uv_flags_rejected 10 (VState.new none none) [97, 98, 99, 100] 0 2
    (by decide) (by decide) (by decide)]
  rfl

/-- The WTF-16 units of `a{5,2}`. -/
def c7Units : List Nat := [97, 123, 53, 44, 50, 125]

/-- Claim C7: whenever `eat_braced_quantifier` is run with errors enabled
(`no_error = false`) and parses `{min,max}` completely with `max < min`,
it raises `numbers out of order in {} quantifier`; and concretely the
pattern `a{5,2}` with the `u` flag is rejected with that cause. -/
theorem c7_braced_quantifier_out_of_order :
    (∀ (s s1 s2 s3 s4 s5 : VState) (min_ max_ : Nat),
      VState.eat s 0x7b = Except.ok (true, s1) →
      eat_decimal_digits s1 = Except.ok (true, s2) →
      s2.last_int_value = some min_ →
      VState.eat s2 0x2c = Except.ok (true, s3) →
      eat_decimal_digits s3 = Except.ok (true, s4) →
      s4.last_int_value = some max_ →
      VState.eat s4 0x7d = Except.ok (true, s5) →
      max_ < min_ →
      eat_braced_quantifier s false =
        Except.error
          (s5.raiseErr "numbers out of order in \x7b\x7d quantifier"
            none)) ∧
    validate_pattern 100 (VState.new none none) c7Units none none
        (some { unicode := some true }) =
      Except.error (VErr.err
        { message := "Invalid regular expression: /a\x7b5,2\x7d/u: " ++
            "numbers out of order in \x7b\x7d quantifier"
          index := 6 }) := by
  constructor
  · intro s s1 s2 s3 s4 s5 min_ max_ h1 h2 hmin h3 h4 hmax h5 hlt
    unfold eat_braced_quantifier
    rw [h1]
    simp only [bind, Except.bind, eq_self_iff_true, if_true]
    rw [h2]
    simp only [Except.bind, eq_self_iff_true, if_true]
    rw [hmin]
    simp only [pure, Except.pure]
    rw [h3]
    simp only [Except.bind, eq_self_iff_true, if_true]
    rw [h4]
    simp only [Except.bind, eq_self_iff_true, if_true]
    rw [hmax]
    simp only [pure, Except.pure, Except.bind]
    rw [h5]
    simp only [Except.bind, eq_self_iff_true, if_true, Bool.not_false,
      true_and]
    rw [if_pos hlt]
    rfl
  · rfl

/-- The state at the opening brace of `{5,2}` (unicode mode, pattern
source context), used to witness the general half of claim C7. -/
def c7s0 : VState :=
  { VState.new none none with
    unicode_mode := true
    src_ctx := some { source := [123, 53, 44, 50, 125]
                      start := 0
                      end_ := 5
                      kind := SourceContextKind.pattern }
    reader := { use_unicode_impl := true, s := [123, 53, 44, 50, 125],
                i := 0, start := 0, end_ := 5, cp1 := some 123, w1 := 1,
                cp2 := some 53, w2 := 1, cp3 := some 44, w3 := 1,
                cp4 := some 50 } }

/-- Witness for claim C7: the out-of-order theorem applied at the concrete
state over `{5,2}`. -/
theorem c7_braced_quantifier_out_of_order_witness :
    eat_braced_quantifier c7s0 false =
      Except.error (VErr.err
        { message := "Invalid regular expression: /\x7b5,2\x7d/u: " ++
            "numbers out of order in \x7b\x7d quantifier"
          index := 5 }) := by
  have h := c7_braced_quantifier_out_of_order.1 c7s0
    (okBS (VState.eat c7s0 0x7b)).2
    (okBS (eat_decimal_digits (okBS (VState.eat c7s0 0x7b)).2)).2
    (okBS (VState.eat
      (okBS (eat_decimal_digits (okBS (VState.eat c7s0 0x7b)).2)).2
      0x2c)).2
    (okBS (eat_decimal_digits
      (okBS (VState.eat
        (okBS (eat_decimal_digits (okBS (VState.eat c7s0 0x7b)).2)).2
        0x2c)).2)).2
    (okBS (VState.eat
      (okBS (eat_decimal_digits
        (okBS (VState.eat
          (okBS (eat_decimal_digits (okBS (VState.eat c7s0 0x7b)).2)).2
          0x2c)).2)).2
      0x7d)).2
    5 2 rfl rfl rfl rfl rfl rfl rfl (by decide)
  rw [h]
  rfl

/-- Claim C9 counterexample: validating an empty flag slice with
`start = end = 1` on the empty source panics (the Rust slicing
`&source[1..1]` is out of range for length 0) instead of returning `Ok`. -/
theorem c9_empty_flags_out_of_bounds_panics :
    validate_flags (VState.new none none) [] (some 1) (some 1) =
      Except.error VErr.panic := rfl

/-- Claim C9 (amended with `start ≤ source.len()`, which the Rust slicing
needs): validating an empty flag slice succeeds and emits
`on_reg_exp_flags(start, start)` with all eight flags false. -/
theorem c9_empty_flags_ok (s : VState) (source : List Nat) (start : Nat)
    (h : start ≤ source.length) :
    validate_flags s source (some start) (some start) =
      Except.ok (VState.emit
        { s with src_ctx := some { source := source
                                   start := start
                                   end_ := start
                                   kind := SourceContextKind.flags } }
        (VEvent.onRegExpFlags start start RegExpFlags.allFalse)) := by
  have hv : validate_flags s source (some start) (some start) =
      validate_flags_internal
        { s with src_ctx := some { source := source
                                   start := start
                                   end_ := start
                                   kind := SourceContextKind.flags } }
        source start start := rfl
  rw [hv]
  unfold validate_flags_internal
  rw [sliceUnits_ok (Nat.le_refl start) h]
  simp only [Nat.sub_self, List.take_zero, bind, Except.bind, pure,
    Except.pure, validate_flags_internal_loop]

/-- Witness for claim C9: the amended theorem applied at the concrete
source `ab` with `start = end = 1`. -/
theorem c9_empty_flags_ok_witness :
    validate_flags (VState.new none none) [97, 98] (some 1) (some 1) =
      Except.ok (VState.emit
        { VState.new none none with
            src_ctx := some { source := [97, 98]
                              start := 1
                              end_ := 1
                              kind := SourceContextKind.flags } }
        (VEvent.onRegExpFlags 1 1 RegExpFlags.allFalse)) :=
  c9_empty_flags_ok (VState.new none none) [97, 98] 1 (by decide)

/-- Claim C6: in unicode-sets mode (and for nested classes), a class that
was opened with `[^` whose contents report `mayContainStrings` is rejected
with exactly the cause `Negated character class may contain strings`
(parts 1 and 3, for `consume_character_class` and `consume_nested_class`),
and consequently no successfully consumed class is both negated and marked
as possibly containing strings (parts 2 and 4). -/
theorem c6_negated_class_never_contains_strings (fuel : Nat)
    (s s1 s2 : VState)
    (h1 : VState.eat s 0x5b = Except.ok (true, s1))
    (h2 : VState.eat s1 0x5e = Except.ok (true, s2)) :
    (∀ (res : UnicodeSetsConsumeResult) (s3 s4 : VState),
      consume_class_contents fuel
          (VState.emit s2 (VEvent.onCharacterClassEnter s.index true
            s2.unicode_sets_mode)) = Except.ok (res, s3) →
      VState.eat s3 0x5d = Except.ok (true, s4) →
      res.may_contain_strings = some true →
      consume_character_class (fuel + 1) s =
        Except.error
          (s4.raiseErr "Negated character class may contain strings"
            none)) ∧
    (∀ (out : UnicodeSetsConsumeResult) (s' : VState),
      consume_character_class (fuel + 1) s = Except.ok (some out, s') →
      out.may_contain_strings ≠ some true) ∧
    (∀ (res : UnicodeSetsConsumeResult) (s3 s4 : VState),
      consume_class_contents fuel
          (VState.emit s2 (VEvent.onCharacterClassEnter s.index true
            true)) = Except.ok (res, s3) →
      VState.eat s3 0x5d = Except.ok (true, s4) →
      res.may_contain_strings = some true →
      consume_nested_class (fuel + 1) s =
        Except.error
          (s4.raiseErr "Negated character class may contain strings"
            none)) ∧
    (∀ (out : UnicodeSetsConsumeResult) (s' : VState),
      consume_nested_class (fuel + 1) s = Except.ok (some out, s') →
      out.may_contain_strings ≠ some true) := by
  refine ⟨?_, ?_, ?_, ?_⟩
  · intro res s3 s4 hc h3 hm
    unfold consume_character_class
    rw [h1]
    simp only [bind, Except.bind, if_true]
    rw [h2]
    simp only [Except.bind]
    rw [hc]
    simp only [Except.bind]
    rw [h3]
    simp only [Except.bind, Bool.not_true]
    rw [if_neg (by simp)]
    rw [if_pos ⟨by trivial, hm⟩]
    rfl
  · intro out s' hok
    unfold consume_character_class at hok
    rw [h1] at hok
    simp only [bind, Except.bind, if_true] at hok
    rw [h2] at hok
    simp only [Except.bind] at hok
    cases hc : consume_class_contents fuel
        (VState.emit s2 (VEvent.onCharacterClassEnter s.index true
          s2.unicode_sets_mode)) with
    | error e =>
      rw [hc] at hok
      simp only [Except.bind] at hok
      exact Except.noConfusion hok
    | ok p =>
      obtain ⟨res, s3⟩ := p
      rw [hc] at hok
      simp only [Except.bind] at hok
      cases h3 : VState.eat s3 0x5d with
      | error e =>
        rw [h3] at hok
        simp only [Except.bind] at hok
        exact Except.noConfusion hok
      | ok q =>
        obtain ⟨bc, s4⟩ := q
        rw [h3] at hok
        simp only [Except.bind] at hok
        cases bc with
        | false =>
          simp only [Bool.not_false, if_true, VState.raise] at hok
          split at hok
          · exact Except.noConfusion hok
          · exact Except.noConfusion hok
        | true =>
          simp only [Bool.not_true, if_false] at hok
          rw [if_neg (by simp)] at hok
          by_cases hm : res.may_contain_strings = some true
          · rw [if_pos ⟨by trivial, hm⟩] at hok
            simp only [VState.raise] at hok
            exact Except.noConfusion hok
          · rw [if_neg (fun hand => hm hand.2)] at hok
            injection hok with hpair
            injection hpair with hfst hsnd
            injection hfst with hres
            rw [← hres]
            exact hm
  · intro res s3 s4 hc h3 hm
    have hunf : consume_nested_class (fuel + 1) s =
        consume_nested_class_body (classSetFns fuel) s := rfl
    rw [hunf]
    unfold consume_nested_class_body
    rw [h1]
    simp only [bind, Except.bind, if_true]
    rw [h2]
    simp only [Except.bind]
    have hc2 : (classSetFns fuel).contents
        (VState.emit s2 (VEvent.onCharacterClassEnter s.index true true)) =
        Except.ok (res, s3) := hc
    rw [hc2]
    simp only [Except.bind]
    rw [h3]
    simp only [Except.bind, Bool.not_true]
    rw [if_neg (by simp)]
    rw [if_pos ⟨by trivial, hm⟩]
    rfl
  · intro out s' hok
    have hunf : consume_nested_class (fuel + 1) s =
        consume_nested_class_body (classSetFns fuel) s := rfl
    rw [hunf] at hok
    unfold consume_nested_class_body at hok
    rw [h1] at hok
    simp only [bind, Except.bind, if_true] at hok
    rw [h2] at hok
    simp only [Except.bind] at hok
    cases hc : (classSetFns fuel).contents
        (VState.emit s2 (VEvent.onCharacterClassEnter s.index true
          true)) with
    | error e =>
      rw [hc] at hok
      simp only [Except.bind] at hok
      exact Except.noConfusion hok
    | ok p =>
      obtain ⟨res, s3⟩ := p
      rw [hc] at hok
      simp only [Except.bind] at hok
      cases h3 : VState.eat s3 0x5d with
      | error e =>
        rw [h3] at hok
        simp only [Except.bind] at hok
        exact Except.noConfusion hok
      | ok q =>
        obtain ⟨bc, s4⟩ := q
        rw [h3] at hok
        simp only [Except.bind] at hok
        cases bc with
        | false =>
          simp only [Bool.not_false, if_true, VState.raise] at hok
          exact Except.noConfusion hok
        | true =>
          simp only [Bool.not_true, if_false] at hok
          rw [if_neg (by simp)] at hok
          by_cases hm : res.may_contain_strings = some true
          · rw [if_pos ⟨by trivial, hm⟩] at hok
            simp only [VState.raise] at hok
            exact Except.noConfusion hok
          · rw [if_neg (fun hand => hm hand.2)] at hok
            injection hok with hpair
            injection hpair with hfst hsnd
            injection hfst with hres
            rw [← hres]
            exact hm

/-- Extracts the payload of a successful class-contents computation. -/
def okUS (x : Except VErr (UnicodeSetsConsumeResult × VState)) :
    UnicodeSetsConsumeResult × VState :=
  match x with
  | Except.ok p => p
  | Except.error _ => ({}, vstateD)

/-- The WTF-16 units of `[^\q{ab}]`. -/
def c6Units : List Nat := [91, 94, 92, 113, 123, 97, 98, 125, 93]

/-- The validator state at the start of `[^\q{ab}]` in unicode-sets mode
(as `validate_pattern` with the `v` flag would set it up). -/
def c6s0 : VState :=
  { VState.new none none with
    unicode_mode := true
    unicode_sets_mode := true
    n_flag := true
    src_ctx := some { source := c6Units
                      start := 0
                      end_ := 9
                      kind := SourceContextKind.pattern }
    reader := { use_unicode_impl := true, s := c6Units, i := 0, start := 0,
                end_ := 9, cp1 := some 91, w1 := 1, cp2 := some 94, w2 := 1,
                cp3 := some 92, w3 := 1, cp4 := some 113 } }

/-- The state after eating `[` of `c6s0`. -/
def c6w_s1 : VState := (okBS (VState.eat c6s0 0x5b)).2

/-- The state after further eating `^`. -/
def c6w_s2 : VState := (okBS (VState.eat c6w_s1 0x5e)).2

/-- The class-contents run over `\q{ab}` from `c6w_s2`. -/
def c6w_contents : Except VErr (UnicodeSetsConsumeResult × VState) :=
  consume_class_contents 59
    (VState.emit c6w_s2 (VEvent.onCharacterClassEnter c6s0.index true
      c6w_s2.unicode_sets_mode))

/-- The contents result of `c6w_contents` (it reports strings). -/
def c6w_res : UnicodeSetsConsumeResult := (okUS c6w_contents).1

/-- The state after the contents run. -/
def c6w_s3 : VState := (okUS c6w_contents).2

/-- The state after eating the closing `]`. -/
def c6w_s4 : VState := (okBS (VState.eat c6w_s3 0x5d)).2

set_option maxHeartbeats 2000000 in
/-- Witness for claim C6: the negated-class theorem applied to the concrete
class `[^\q{ab}]` in unicode-sets mode — validation fails with exactly the
cause `Negated character class may contain strings`. -/
theorem c6_negated_class_never_contains_strings_witness :
    consume_character_class (59 + 1) c6s0 =
      Except.error (VErr.err
        { message := "Invalid regular expression: /[^\\q\x7bab\x7d]/v: " ++
            "Negated character class may contain strings"
          index := 9 }) := by
  have h := (c6_negated_class_never_contains_strings 59 c6s0 c6w_s1 c6w_s2
    rfl rfl).1 c6w_res c6w_s3 c6w_s4 rfl rfl rfl
  rw [h]
  rfl

/-- `baseEq` is symmetric. -/
theorem Reader.baseEq_symm {r r2 : Reader} (h : Reader.baseEq r r2) :
    Reader.baseEq r2 r :=
  ⟨h.1.symm, h.2.1.symm, h.2.2.1.symm, h.2.2.2.symm⟩

/-- A successful `advance` never changes the base fields. -/
theorem Reader.advance_baseEq {r r2 : Reader}
    (h : r.advance = Except.ok r2) : Reader.baseEq r r2 := by
  cases hcp : r.cp1 with
  | none =>
    have hrr : r2 = r := by
      unfold Reader.advance at h
      rw [hcp] at h
      exact ((Except.ok.injEq _ _).mp h).symm
    rw [hrr]
    exact Reader.baseEq_refl r
  | some x => exact (Reader.advance_ok_fields hcp h).2.2.2.2.2.2.2.2

/-- The validator-level frame of `advance`: only the reader field moves,
and the reader base fields are preserved. -/
theorem VState.advance_frame {s s2 : VState}
    (h : VState.advance s = Except.ok s2) :
    (∀ rd, ({ s2 with reader := rd } : VState) = { s with reader := rd }) ∧
      Reader.baseEq s.reader s2.reader := by
  unfold VState.advance at h
  cases hr : s.reader.advance with
  | error e =>
    rw [hr] at h
    exact Except.noConfusion h
  | ok r =>
    rw [hr] at h
    simp only [Except.ok.injEq] at h
    subst h
    exact ⟨fun rd => rfl, Reader.advance_baseEq hr⟩

/-- The scan loop of `count_capturing_parens` only moves the reader (by
`advance` steps), keeping every other validator field and the reader base
fields intact. -/
theorem count_capturing_parens_loop_frame :
    ∀ (fuel : Nat) (s : VState) (ic esc : Bool) (cnt n : Nat)
      (s2 : VState),
      count_capturing_parens_loop fuel s ic esc cnt = Except.ok (n, s2) →
      (∀ rd, ({ s2 with reader := rd } : VState) =
          { s with reader := rd }) ∧
        Reader.baseEq s.reader s2.reader := by
  intro fuel
  induction fuel with
  | zero =>
    intro s ic esc cnt n s2 h
    exact Except.noConfusion h
  | succ fuel ih =>
    intro s ic esc cnt n s2 h
    unfold count_capturing_parens_loop at h
    cases hcp : s.current_code_point with
    | none =>
      simp only [hcp, Except.ok.injEq, Prod.mk.injEq] at h
      obtain ⟨-, hs⟩ := h
      subst hs
      exact ⟨fun rd => rfl, Reader.baseEq_refl _⟩
    | some cp =>
      simp only [hcp, bind, Except.bind] at h
      cases hadv : VState.advance s with
      | error e =>
        rw [hadv] at h
        simp only [Except.bind] at h
        exact Except.noConfusion h
      | ok s1 =>
        rw [hadv] at h
        simp only [Except.bind] at h
        obtain ⟨hf1, hb1⟩ := VState.advance_frame hadv
        obtain ⟨hf2, hb2⟩ := ih s1 _ _ _ n s2 h
        exact ⟨fun rd => (hf2 rd).trans (hf1 rd),
          Reader.baseEq_trans hb1 hb2⟩

/-- Claim C10: on a canonical reader state (and the validator only ever
holds canonical ones, since `reset`, `rewind` and `advance` all produce
them), the capturing-paren pre-pass `count_capturing_parens` returns with
the validator state — reader index and four-slot lookahead window
included — exactly as it was before the pre-pass ran. -/
theorem c10_count_capturing_parens_position_preserving
    (s : VState) (n : Nat) (s2 : VState)
    (hc : s.reader.canonical)
    (h : count_capturing_parens s = Except.ok (n, s2)) :
    s2 = s := by
  unfold count_capturing_parens at h
  simp only [bind, Except.bind] at h
  cases hloop : count_capturing_parens_loop
      (s.reader.end_ + 1 - s.reader.i) s false false 0 with
  | error e =>
    rw [hloop] at h
    simp only [Except.bind] at h
    exact Except.noConfusion h
  | ok p =>
    obtain ⟨cnt, smid⟩ := p
    rw [hloop] at h
    simp only [Except.bind] at h
    obtain ⟨hf, hb⟩ :=
      count_capturing_parens_loop_frame _ _ _ _ _ _ _ hloop
    have hrew : smid.reader.rewind s.index = Except.ok s.reader := by
      rw [Reader.rewind_congr (Reader.baseEq_symm hb) s.index]
      exact hc
    unfold VState.rewind at h
    rw [hrew] at h
    simp only [Except.bind, Except.ok.injEq, Prod.mk.injEq] at h
    obtain ⟨-, hs⟩ := h
    rw [← hs]
    exact (hf s.reader).trans rfl

/-- The validator state at the start of the pattern `(a)` (as
`validate_pattern` sets it up), with the matching four-slot lookahead
window. -/
def c10s0 : VState :=
  { VState.new none none with
    src_ctx := some { source := [40, 97, 41]
                      start := 0
                      end_ := 3
                      kind := SourceContextKind.pattern }
    reader := { use_unicode_impl := false, s := [40, 97, 41], i := 0,
                start := 0, end_ := 3, cp1 := some 40, w1 := 1,
                cp2 := some 97, w2 := 1, cp3 := some 41, w3 := 1,
                cp4 := none } }

/-- Witness for claim C10: the pre-pass over `(a)` counts one capturing
group and hands back the starting state unchanged. -/
theorem c10_count_capturing_parens_position_preserving_witness :
    c10s0.reader.canonical ∧
      count_capturing_parens c10s0 = Except.ok (1, c10s0) := by
  have hrun : count_capturing_parens c10s0 =
      Except.ok (1, okNS (count_capturing_parens c10s0)) := rfl
  have hc : c10s0.reader.canonical := rfl
  have he := c10_count_capturing_parens_position_preserving c10s0 1
    (okNS (count_capturing_parens c10s0)) hc hrun
  exact ⟨hc, by rw [hrun, he]⟩

set_option maxHeartbeats 2000000 in
/-- Claim C1: the claim asserts that every input accepted by the parser
leaves each backreference resolved to its capturing group (which then
lists the backreference) after `on_pattern_leave`. The validator accepts
`(a)\1` with the `u` flag, emitting exactly `c1Trace`; replaying that
trace through the parser handlers succeeds for every event before
`on_pattern_leave` and then panics inside `on_pattern_leave`: the
resolution loop indexes `_capturing_groups[1 - 1]`, but
`on_capturing_group_enter` never recorded the group so the vector is
empty. Hence parsing this accepted input panics instead of producing an
AST with a resolved backreference. -/
theorem c1_backreference_resolution_panics :
    (validate_pattern 200 (VState.new none none) c1Units none none
        (some { unicode := some true })).map (fun s => s.events) =
      Except.ok c1Trace ∧
    parseOk (applyEvents (ParserState.new c1Units)
      (c1Trace.take 13)) = true ∧
    applyEvents (ParserState.new c1Units) c1Trace =
      Except.error PErr.panic := by
  refine ⟨?_, rfl, rfl⟩
  rfl

end Regexpp
